import Mathlib

/-!
Verification development for the mesh fetch/cache pipeline of
`indra/newview/llmeshrepository.cpp`.

The C++ functions relevant to the claims are shallowly embedded as
executable Lean definitions.  Machine integers (`S32`, `U32`, `llssize`)
are modelled as `Int`: every value that reaches the modelled arithmetic
is a byte offset or size far below any overflow boundary, and no
modelled code path relies on wraparound.  Queues and in-flight handle
sets are modelled by occupancy counts, and the side effects of a call
(HTTP issued, queue pushes, preamble rewrites) are returned in explicit
result records.
-/

namespace MeshRepo

/-- llmeshrepository.cpp:390, `constexpr S32 MAX_MESH_VERSION = 999`. -/
def MAX_MESH_VERSION : Int := 999

/-- llmeshrepository.cpp:352, `CACHE_PREAMBLE_SIZE = sizeof(U32) * 3`. -/
def CACHE_PREAMBLE_SIZE : Int := 12

/-- llmeshrepository.cpp:353, `constexpr S32 MESH_HEADER_SIZE = 4096`. -/
def MESH_HEADER_SIZE : Int := 4096

/-- llmeshrepository.cpp:371, `constexpr U32 DOWNLOAD_RETRY_LIMIT = 8`. -/
def DOWNLOAD_RETRY_LIMIT : Nat := 8

/-- llmeshrepository.cpp:372, `constexpr F32 DOWNLOAD_RETRY_DELAY = 0.5f`;
exactly representable, modelled as a rational. -/
def DOWNLOAD_RETRY_DELAY : ℚ := 1/2

/-- `LLVolumeLODGroup::NUM_LODS`: the four render levels of detail,
indexed 0..3 (spec glossary; used by `getActualMeshLOD` and
`LLMeshRepository::loadMesh`). -/
def LLVolumeLODGroup_NUM_LODS : Nat := 4

/-- Modelled from the spec: `LLModel::NUM_LODS` is declared in
`llmodel.h`, which is not part of src/.  The asset has the four render
LOD tiers plus the physics-mesh slot, so the per-model LOD enumeration
has five entries; llmeshrepository.cpp sizes its per-identifier pending
arrays and in-cache-bit loops with this constant. -/
def LLModel_NUM_LODS : Nat := 5

/-- `llclamp(a, minv, maxv)` from llmath/llmath.h as used at
llmeshrepository.cpp:3566. -/
def llclamp (a minv maxv : Int) : Int :=
  if a < minv then minv else if a > maxv then maxv else a

/-- `EMeshProcessingResult` (values used by llmeshrepository.cpp). -/
inductive EMeshProcessingResult where
  | MESH_OK
  | MESH_NO_DATA
  | MESH_OUT_OF_MEMORY
  | MESH_HTTP_REQUEST_FAILED
  | MESH_PARSE_FAILURE
  | MESH_INVALID
  | MESH_UNKNOWN
  deriving DecidableEq, Repr

/-- The mesh header record `LLMeshHeader` (declared in
llmeshrepository.h; its fields are reconstructed from every access in
llmeshrepository.cpp).  The per-LOD arrays, which the C++ sizes with
`LLModel::NUM_LODS`, are modelled as total functions on `Nat`; only
indices below `LLModel_NUM_LODS` are ever used. -/
structure LLMeshHeader where
  mVersion : Int
  mSkinOffset : Int
  mSkinSize : Int
  mPhysicsConvexOffset : Int
  mPhysicsConvexSize : Int
  mPhysicsMeshOffset : Int
  mPhysicsMeshSize : Int
  mLodOffset : Nat → Int
  mLodSize : Nat → Int
  mSkinInCache : Bool
  mPhysicsConvexInCache : Bool
  mPhysicsMeshInCache : Bool
  mLodInCache : Nat → Bool
  m404 : Bool
  mHeaderSize : Int

/-- The numeric fields of a successfully decoded header map (the result
of `LLSDSerialize::fromBinary` at llmeshrepository.cpp:2308, restricted
to the fields `LLMeshHeader::fromLLSD` reads). -/
structure MeshHeaderData where
  version : Int
  skinOffset : Int
  skinSize : Int
  physicsConvexOffset : Int
  physicsConvexSize : Int
  physicsMeshOffset : Int
  physicsMeshSize : Int
  lodOffset : Nat → Int
  lodSize : Nat → Int

/-- Modelled from the spec: `LLMeshHeader::fromLLSD` is declared in
llmeshrepository.h, which is not part of src/.  Per spec section 4.8
step 4 it populates the header record (format version and the
offset/size pair of each sub-section) from the decoded fields; the 404
bit, the in-cache bits and the header byte-size are not decoded fields
and start cleared. -/
def LLMeshHeader.fromLLSD (d : MeshHeaderData) : LLMeshHeader where
  mVersion := d.version
  mSkinOffset := d.skinOffset
  mSkinSize := d.skinSize
  mPhysicsConvexOffset := d.physicsConvexOffset
  mPhysicsConvexSize := d.physicsConvexSize
  mPhysicsMeshOffset := d.physicsMeshOffset
  mPhysicsMeshSize := d.physicsMeshSize
  mLodOffset := d.lodOffset
  mLodSize := d.lodSize
  mSkinInCache := false
  mPhysicsConvexInCache := false
  mPhysicsMeshInCache := false
  mLodInCache := fun _ => false
  m404 := false
  mHeaderSize := 0

/-- `LLMeshRepository::getActualMeshLOD(LLMeshHeader&, S32)`
(llmeshrepository.cpp:3564-3607).  The C++ takes the header by
reference and sets its 404 bit when no LOD has positive size, so the
model returns the updated header together with the chosen LOD
(or -1). -/
def getActualMeshLOD (h : LLMeshHeader) (lod : Int) : LLMeshHeader × Int :=
  let lodc : Nat := (llclamp lod 0 3).toNat
  if h.m404 then (h, -1)
  else if MAX_MESH_VERSION < h.mVersion then (h, -1)
  else if 0 < h.mLodSize lodc then (h, (lodc : Int))
  else
    match (List.range lodc).reverse.find? (fun i => decide (0 < h.mLodSize i)) with
    | some i => (h, (i : Int))
    | none =>
      match (List.range' (lodc+1) (LLVolumeLODGroup_NUM_LODS - (lodc+1))).find?
              (fun i => decide (0 < h.mLodSize i)) with
      | some i => (h, (i : Int))
      | none => ({ h with m404 := true }, -1)

/-- The preamble flags word decoded into its presence bits
(`LLMeshHeader::setFromFlags`, declared in llmeshrepository.h; the bit
assignment follows spec section 6: skin, physics-convex, physics-mesh
and one bit per LOD). -/
structure InCacheFlags where
  skin : Bool
  physicsConvex : Bool
  physicsMesh : Bool
  lod : Nat → Bool

/-- Everything `LLMeshRepoThread::headerReceived` consumes besides the
raw bytes.  The byte-level collaborators (legacy shim, LLSD decoder,
sub-section parsers) are external to the modelled arithmetic and enter
as oracle fields:

* `dataSize` is the `data_size` argument;
* `stripBytes` is the byte count consumed by `strip_deprecated_header`
  (defined in llmodel.cpp, not part of src/; modelled from the spec as
  the length of the legacy compatibility shim, 0 on modern assets);
* `decodeOk`/`isMap`/`decoded`/`streamPos` describe the
  `LLSDSerialize::fromBinary` outcome and `stream.tellg()`;
* `flags` is the flags argument, `none` standing for the literal 0;
* `pendingLods` is the entry of `mPendingLOD` for this mesh id;
* `skinParseOk` and `lodParseOk i` are the results `skinInfoReceived`
  and `lodReceived(...) == MESH_OK` would return on the in-hand bytes. -/
structure HeaderReceivedEnv where
  dataSize : Int
  stripBytes : Int
  decodeOk : Bool
  isMap : Bool
  decoded : MeshHeaderData
  streamPos : Int
  flags : Option InCacheFlags
  pendingLods : Option (Nat → Nat)
  skinParseOk : Bool
  lodParseOk : Nat → Bool

/-- Observable outcome of `headerReceived`: the returned status, the
header stored into `mMeshHeader`, whether the skin and each pending LOD
were satisfied from the in-hand bytes or pushed as new sub-section
requests (`mSkinRequests` / `mLODReqQ`), and whether the `mPendingLOD`
entry was erased. -/
structure HeaderReceivedOut where
  result : EMeshProcessingResult
  stored : Option LLMeshHeader
  skinSatisfied : Bool
  skinRequested : Bool
  lodSatisfied : Nat → Bool
  lodRequested : Nat → Bool
  pendingErased : Bool

/-- In-cache bit computation of llmeshrepository.cpp:2339-2364: with a
nonzero flags word the bits come from `setFromFlags`, otherwise each
sub-section whose bytes lie strictly inside the retrieved data is
marked present (the C++ only ever sets bits to true here; the
`fromLLSD` result has them all false). -/
def setInCacheBits (h : LLMeshHeader) (flags : Option InCacheFlags)
    (headerSize dsize : Int) : LLMeshHeader :=
  match flags with
  | some f =>
    { h with mSkinInCache := f.skin, mPhysicsConvexInCache := f.physicsConvex,
             mPhysicsMeshInCache := f.physicsMesh, mLodInCache := f.lod }
  | none =>
    { h with
      mSkinInCache := h.mSkinInCache ||
        (decide (0 < h.mSkinSize) && decide (headerSize + h.mSkinOffset + h.mSkinSize < dsize)),
      mPhysicsConvexInCache := h.mPhysicsConvexInCache ||
        (decide (0 < h.mPhysicsConvexSize) &&
          decide (headerSize + h.mPhysicsConvexOffset + h.mPhysicsConvexSize < dsize)),
      mPhysicsMeshInCache := h.mPhysicsMeshInCache ||
        (decide (0 < h.mPhysicsMeshSize) &&
          decide (headerSize + h.mPhysicsMeshOffset + h.mPhysicsMeshSize < dsize)),
      mLodInCache := fun i =>
        if i < LLModel_NUM_LODS then
          h.mLodInCache i ||
            (decide (0 < h.mLodSize i) && decide (headerSize + h.mLodOffset i + h.mLodSize i < dsize))
        else h.mLodInCache i }

/-- The local `lod_size`/`lod_offset` arrays of `headerReceived` as
default-initialised at llmeshrepository.cpp:2297-2298: C++ aggregate
initialisation `= { -1 }` sets element 0 to -1 and the rest to 0. -/
def initLodLocal : Nat → Int := fun i => if i = 0 then -1 else 0

/-- Second half of `headerReceived` (llmeshrepository.cpp:2374-2459):
store the header, then run the opportunistic skin block and the
pending-LOD block using the function-local copies of the offsets and
sizes (which stay at their initial values on every 404/early path). -/
def headerFinish (env : HeaderReceivedEnv) (stored : LLMeshHeader)
    (headerSize skinOffset skinSize : Int) (lodOffset lodSize : Nat → Int) :
    HeaderReceivedOut :=
  let dsize := env.dataSize - env.stripBytes
  let skinGate := decide (0 ≤ skinOffset) && decide (0 < skinSize)
  let skinFit := decide (headerSize + skinOffset + skinSize < dsize)
  let skinSatisfied := skinGate && skinFit && env.skinParseOk
  let skinRequested := skinGate && !(skinFit && env.skinParseOk)
  match env.pendingLods with
  | none =>
    { result := .MESH_OK, stored := some stored,
      skinSatisfied := skinSatisfied, skinRequested := skinRequested,
      lodSatisfied := fun _ => false, lodRequested := fun _ => false,
      pendingErased := false }
  | some pend =>
    let lodGate := fun i =>
      decide (i < LLModel_NUM_LODS) && decide (0 < pend i) && decide (0 < lodSize i)
    let lodFit := fun i => decide (headerSize + lodOffset i + lodSize i ≤ dsize)
    { result := .MESH_OK, stored := some stored,
      skinSatisfied := skinSatisfied, skinRequested := skinRequested,
      lodSatisfied := fun i => lodGate i && lodFit i && env.lodParseOk i,
      lodRequested := fun i => lodGate i && !(lodFit i && env.lodParseOk i),
      pendingErased := true }

/-- Modelled from the spec: the default-constructed `LLMeshHeader` of
llmeshrepository.cpp:2292 (constructor in llmeshrepository.h, not part
of src/): no sub-section offsets or sizes are known, no bits set.  Only
its 404 bit is ever observed on the paths that store it. -/
def LLMeshHeader.defaultHeader : LLMeshHeader where
  mVersion := 0
  mSkinOffset := -1
  mSkinSize := -1
  mPhysicsConvexOffset := -1
  mPhysicsConvexSize := -1
  mPhysicsMeshOffset := -1
  mPhysicsMeshSize := -1
  mLodOffset := initLodLocal
  mLodSize := initLodLocal
  mSkinInCache := false
  mPhysicsConvexInCache := false
  mPhysicsMeshInCache := false
  mLodInCache := fun _ => false
  m404 := false
  mHeaderSize := 0

/-- `LLMeshRepoThread::headerReceived` (llmeshrepository.cpp:2286-2460).
Decode failures return early without storing anything; otherwise the
header is gated (version, at least one positive LOD via
`getActualMeshLOD(header, 0)`), stored, and the opportunistic skin and
pending-LOD processing runs on the function-local offset/size copies. -/
def headerReceived (env : HeaderReceivedEnv) : HeaderReceivedOut :=
  if 0 < env.dataSize then
    if ¬ env.decodeOk then
      { result := .MESH_PARSE_FAILURE, stored := none,
        skinSatisfied := false, skinRequested := false,
        lodSatisfied := fun _ => false, lodRequested := fun _ => false,
        pendingErased := false }
    else if ¬ env.isMap then
      { result := .MESH_INVALID, stored := none,
        skinSatisfied := false, skinRequested := false,
        lodSatisfied := fun _ => false, lodRequested := fun _ => false,
        pendingErased := false }
    else
      let header0 := LLMeshHeader.fromLLSD env.decoded
      if MAX_MESH_VERSION < header0.mVersion then
        headerFinish env { header0 with m404 := true }
          env.stripBytes (-1) (-1) initLodLocal initLodLocal
      else
        let p := getActualMeshLOD header0 0
        if 0 ≤ p.2 then
          let header1 := { p.1 with mHeaderSize := env.streamPos }
          let headerSize := env.stripBytes + env.streamPos
          let header2 := setInCacheBits header1 env.flags headerSize (env.dataSize - env.stripBytes)
          headerFinish env header2 headerSize
            header1.mSkinOffset header1.mSkinSize header1.mLodOffset header1.mLodSize
        else
          headerFinish env p.1 env.stripBytes (-1) (-1) initLodLocal initLodLocal
  else
    headerFinish env { LLMeshHeader.defaultHeader with m404 := true }
      0 (-1) (-1) initLodLocal initLodLocal

/-! ## Retry bookkeeping (`RequestStats`) -/

/-- `RequestStats` (llmeshrepository.cpp:545-561): retry counter plus the
expiry its `LLTimer` was last set to.  `delaySec = none` models a timer
that was never started. -/
structure RequestStats where
  mRetries : Nat
  delaySec : Option ℚ
  deriving DecidableEq, Repr

/-- A freshly constructed request: zero retries, timer not started. -/
def RequestStats.initial : RequestStats := ⟨0, none⟩

/-- `RequestStats::updateTime` (llmeshrepository.cpp:545-551): the delay
modifier is computed from the retry count before the increment. -/
def RequestStats.updateTime (r : RequestStats) : RequestStats :=
  { mRetries := r.mRetries + 1,
    delaySec := some (DOWNLOAD_RETRY_DELAY * ((2 ^ r.mRetries : Nat) : ℚ)) }

/-- `RequestStats::canRetry` (llmeshrepository.cpp:553-556). -/
def RequestStats.canRetry (r : RequestStats) : Bool :=
  r.mRetries < DOWNLOAD_RETRY_LIMIT

/-- Worker-loop retry discipline applied to every request source
(llmeshrepository.cpp:1081-1093, 1128-1142, 1176-1187, 1231-1241,
1267-1277): a failed fetch attempt re-queues the request via
`updateTime` when `canRetry` holds and abandons it otherwise. -/
def RequestStats.onFetchFailure (r : RequestStats) : Option RequestStats :=
  if r.canRetry then some r.updateTime else none

/-- Retry state of a request after `k` failed fetch attempts. -/
def afterFailures : Nat → Option RequestStats
  | 0 => some RequestStats.initial
  | k+1 => (afterFailures k).bind RequestStats.onFetchFailure

/-! ## HTTP completion range handling (`LLMeshHandlerBase::onCompleted`) -/

/-- Outcome of the success branch of `onCompleted`. -/
inductive CompletionOutcome where
  | noBody
  | rangeFail
  | allocFail
  | delivered (bodyOffset dataLen : Int)
  deriving DecidableEq, Repr

/-- Success branch of `LLMeshHandlerBase::onCompleted`
(llmeshrepository.cpp:3635-3728).  `mOffset` is the handler request
offset; `is206` the comparison of the status with HTTP_PARTIAL_CONTENT;
`rangeOffset`/`rangeLength` what `response->getRange` wrote, both zero
when the response carries no usable range header; `dataSize` the body
size and `allocOk` the copy-buffer allocation.  On delivery the handler
receives the slice starting at `body_offset = mOffset - offset` with
length `data_size - body_offset`. -/
def onCompletedSuccess (mOffset : Int) (is206 : Bool)
    (rangeOffset rangeLength dataSize : Int) (allocOk : Bool) : CompletionOutcome :=
  if 0 < dataSize then
    let offset : Int :=
      if is206 then
        if rangeOffset = 0 ∧ rangeLength = 0 then mOffset else rangeOffset
      else 0
    if mOffset < offset ∨ offset + dataSize ≤ mOffset ∨ dataSize ≤ mOffset - offset then
      .rangeFail
    else if allocOk then .delivered (mOffset - offset) (dataSize - (mOffset - offset))
    else .allocFail
  else .noBody

/-! ## Sub-section fetch functions of `LLMeshRepoThread` -/

/-- Context of one `fetchMesh*` call.  The disk cache, allocator, parse
pool and HTTP transport are external collaborators; their outcomes enter
as fields:

* `headerLookup`: the `mMeshHeader` entry for the mesh id;
* `fileSize`/`fileByte`: the cache file size and contents by absolute
  file offset;
* `allocOk`: the `new(std::nothrow)` / `getDiskCacheBuffer` outcome;
* `postOk`: whether the post to `mMeshThreadPool` is accepted;
* `parseOk`: what `skinInfoReceived` / `lodReceived(..) == MESH_OK` /
  `decompositionReceived` / `physicsShapeReceived(..) == MESH_OK`
  returns on the cached bytes;
* `httpUrlOk`: `constructUrl` produced a non-empty url;
* `httpHandleOk`: `getByteRange` returned a valid handle;
* `fileMaxSizeOk`: `file.getMaxSize() >= CACHE_PREAMBLE_SIZE` inside the
  cache-mismatch lambda. -/
structure FetchEnv where
  headerLookup : Option LLMeshHeader
  fileSize : Int
  fileByte : Int → Nat
  allocOk : Bool
  postOk : Bool
  parseOk : Bool
  httpUrlOk : Bool
  httpHandleOk : Bool
  fileMaxSizeOk : Bool

/-- Observable effects of one `fetchMesh*` call, including the eventual
effects of the parse task it posts to the pool (the posted lambda runs
later on a pool thread; its queue pushes and header edits are recorded
here as effects of the call that posted it). -/
structure FetchResult where
  retval : Bool
  issuedHttp : Bool
  requestedOffset : Int
  requestedSize : Int
  postedToPool : Bool
  deliveredFromCache : Bool
  clearedInCacheBits : Bool
  rewrotePreamble : Bool
  reEnqueued : Bool
  pushedUnavailable : Bool
  deliveredNullPhysics : Bool
  deriving DecidableEq, Repr

/-- The all-effects-absent result. -/
def FetchResult.noEffects : FetchResult :=
  ⟨false, false, 0, 0, false, false, false, false, false, false, false⟩

/-- The first-kilobyte all-zero check (llmeshrepository.cpp:1620-1625
and its three analogues): scan buffer indices `0 ≤ i < min size 1024`,
which hold the cache file bytes at `diskOfs + i`. -/
def firstKZero (bytes : Int → Nat) (diskOfs size : Int) : Bool :=
  (List.range (min size 1024).toNat).all (fun i => decide (bytes (diskOfs + (i : Int)) = 0))

/-- The HTTP fallback tail shared by the fetch functions
(llmeshrepository.cpp:1697-1730 for skin): construct the url, issue the
byte-range GET and insert the handler into `mHttpRequestSet`; on an
empty url the skin and LOD variants push to their unavailable queue
(`unavailableOnNoUrl`), the decomposition and physics variants do
nothing. -/
def httpFallback (env : FetchEnv) (offset size : Int) (unavailableOnNoUrl : Bool) :
    FetchResult :=
  if env.httpUrlOk then
    if env.httpHandleOk then
      { FetchResult.noEffects with
          retval := true, issuedHttp := true,
          requestedOffset := offset, requestedSize := size }
    else { FetchResult.noEffects with retval := false }
  else
    { FetchResult.noEffects with retval := true, pushedUnavailable := unavailableOnNoUrl }

/-- `LLMeshRepoThread::fetchMeshSkinInfo` (llmeshrepository.cpp:1561-1745).
With no header entry the function does nothing and returns false.  On a
cache hit the first kilobyte is zero-checked: non-zero bytes are parsed
(via the pool when the post is accepted, else inline), and only a failed
parse of such bytes clears every in-cache bit, rewrites the preamble and
re-enqueues the request; an all-zero first kilobyte falls through to the
HTTP fetch directly. -/
def fetchMeshSkinInfo (env : FetchEnv) : FetchResult :=
  match env.headerLookup with
  | none => { FetchResult.noEffects with retval := false }
  | some header =>
    if 0 < header.mHeaderSize then
      let offset := header.mHeaderSize + header.mSkinOffset
      let size := header.mSkinSize
      if header.mVersion ≤ MAX_MESH_VERSION ∧ 0 ≤ offset ∧ 0 < size then
        let diskOfs := offset + CACHE_PREAMBLE_SIZE
        if header.mSkinInCache = true ∧ diskOfs + size ≤ env.fileSize then
          if ¬ env.allocOk then
            { FetchResult.noEffects with retval := true, pushedUnavailable := true }
          else if firstKZero env.fileByte diskOfs size = false then
            if env.postOk then
              if env.parseOk then
                { FetchResult.noEffects with
                    retval := true, postedToPool := true, deliveredFromCache := true }
              else
                { FetchResult.noEffects with
                    retval := true, postedToPool := true,
                    clearedInCacheBits := true, rewrotePreamble := env.fileMaxSizeOk,
                    reEnqueued := true }
            else if env.parseOk then
              { FetchResult.noEffects with retval := true, deliveredFromCache := true }
            else httpFallback env offset size true
          else httpFallback env offset size true
        else httpFallback env offset size true
      else { FetchResult.noEffects with retval := true, pushedUnavailable := true }
    else { FetchResult.noEffects with retval := true }

/-- `LLMeshRepoThread::fetchMeshLOD` (llmeshrepository.cpp:2087-2284);
same shape as the skin fetch, reading the per-LOD header fields and
pushing to `mUnavailableQ` / `mLODReqQ`. -/
def fetchMeshLOD (env : FetchEnv) (lod : Nat) : FetchResult :=
  match env.headerLookup with
  | none => { FetchResult.noEffects with retval := false }
  | some header =>
    if 0 < header.mHeaderSize then
      let offset := header.mHeaderSize + header.mLodOffset lod
      let size := header.mLodSize lod
      if header.mVersion ≤ MAX_MESH_VERSION ∧ 0 ≤ offset ∧ 0 < size then
        let diskOfs := offset + CACHE_PREAMBLE_SIZE
        if header.mLodInCache lod = true ∧ diskOfs + size ≤ env.fileSize then
          if ¬ env.allocOk then
            { FetchResult.noEffects with retval := true, pushedUnavailable := true }
          else if firstKZero env.fileByte diskOfs size = false then
            if env.postOk then
              if env.parseOk then
                { FetchResult.noEffects with
                    retval := true, postedToPool := true, deliveredFromCache := true }
              else
                { FetchResult.noEffects with
                    retval := true, postedToPool := true,
                    clearedInCacheBits := true, rewrotePreamble := env.fileMaxSizeOk,
                    reEnqueued := true }
            else if env.parseOk then
              { FetchResult.noEffects with retval := true, deliveredFromCache := true }
            else httpFallback env offset size true
          else httpFallback env offset size true
        else httpFallback env offset size true
      else { FetchResult.noEffects with retval := true, pushedUnavailable := true }
    else { FetchResult.noEffects with retval := true }

/-- `LLMeshRepoThread::fetchMeshDecomposition`
(llmeshrepository.cpp:1747-1850): no unavailable pushes, the cache parse
runs inline, a parse failure simply falls through to HTTP, and with a
failed gate or empty url the function returns silently. -/
def fetchMeshDecomposition (env : FetchEnv) : FetchResult :=
  match env.headerLookup with
  | none => { FetchResult.noEffects with retval := false }
  | some header =>
    if 0 < header.mHeaderSize then
      let offset := header.mHeaderSize + header.mPhysicsConvexOffset
      let size := header.mPhysicsConvexSize
      if header.mVersion ≤ MAX_MESH_VERSION ∧ 0 ≤ offset ∧ 0 < size then
        let diskOfs := offset + CACHE_PREAMBLE_SIZE
        if header.mPhysicsConvexInCache = true ∧ diskOfs + size ≤ env.fileSize then
          if ¬ env.allocOk then { FetchResult.noEffects with retval := true }
          else if firstKZero env.fileByte diskOfs size = false ∧ env.parseOk then
            { FetchResult.noEffects with retval := true, deliveredFromCache := true }
          else httpFallback env offset size false
        else httpFallback env offset size false
      else { FetchResult.noEffects with retval := true }
    else { FetchResult.noEffects with retval := true }

/-- `LLMeshRepoThread::fetchMeshPhysicsShape`
(llmeshrepository.cpp:1852-1960): like the decomposition fetch on the
physics-mesh fields, except that a failed gate (in particular a
physics-mesh size of 0) delivers `physicsShapeReceived(NULL, 0)` - a
null decomposition pushed to `mDecompositionQ` - with no HTTP request. -/
def fetchMeshPhysicsShape (env : FetchEnv) : FetchResult :=
  match env.headerLookup with
  | none => { FetchResult.noEffects with retval := false }
  | some header =>
    if 0 < header.mHeaderSize then
      let offset := header.mHeaderSize + header.mPhysicsMeshOffset
      let size := header.mPhysicsMeshSize
      if header.mVersion ≤ MAX_MESH_VERSION ∧ 0 ≤ offset ∧ 0 < size then
        let diskOfs := offset + CACHE_PREAMBLE_SIZE
        if header.mPhysicsMeshInCache = true ∧ diskOfs + size ≤ env.fileSize then
          if ¬ env.allocOk then { FetchResult.noEffects with retval := true }
          else if firstKZero env.fileByte diskOfs size = false ∧ env.parseOk then
            { FetchResult.noEffects with retval := true, deliveredFromCache := true }
          else httpFallback env offset size false
        else httpFallback env offset size false
      else { FetchResult.noEffects with retval := true, deliveredNullPhysics := true }
    else { FetchResult.noEffects with retval := true }

/-! ## Registry front end: `LLMeshRepository::loadMesh` -/

/-- Main-thread registry state touched by `loadMesh`: the per-LOD
loading table (LOD index, then mesh id, to the volume list), the pending
request list and the `sLODPending` counter. -/
structure RepoMainState where
  mLoadingMeshes : Nat → Nat → Option (List Nat)
  mPendingRequests : List (Nat × Nat)
  sLODPending : Int

/-- `LLMeshRepository::loadMesh` (llmeshrepository.cpp:4393-4479).
Scene objects and mesh ids are opaque naturals.  The trailing
best-already-loaded-LOD search walks the external `LLVolumeLODGroup`
(outside src/), so the value returned on the in-range path is supplied
by the `bestLookup` oracle; the out-of-range guard and the loading-table
update are modelled exactly. -/
def loadMesh (s : RepoMainState) (vobj meshId : Nat) (newLod : Int)
    (bestLookup : Int) : RepoMainState × Int :=
  if newLod < 0 ∨ (LLVolumeLODGroup_NUM_LODS : Int) ≤ newLod then (s, newLod)
  else
    let lodN := newLod.toNat
    let s1 :=
      match s.mLoadingMeshes lodN meshId with
      | some vols =>
        if vobj ∈ vols then s
        else { s with mLoadingMeshes := fun l i =>
                 if l = lodN ∧ i = meshId then some (vols ++ [vobj])
                 else s.mLoadingMeshes l i }
      | none =>
        { mLoadingMeshes := fun l i =>
            if l = lodN ∧ i = meshId then some [vobj] else s.mLoadingMeshes l i,
          mPendingRequests := s.mPendingRequests ++ [(meshId, lodN)],
          sLODPending := s.sLODPending + 1 }
    (s1, bestLookup)

/-! ## Skin-map cull pass of `notifyLoadedMeshes` -/

/-- One main-thread skin-map entry as seen by the 10-second cull: the
mesh id and the `LLPointer` reference count at visit time. -/
structure SkinMapEntry where
  id : Nat
  numRefs : Nat
  deriving DecidableEq, Repr

/-- The skin-map cull pass of `LLMeshRepository::notifyLoadedMeshes`
(llmeshrepository.cpp:4635-4663): walk the main-thread skin map, erase
an entry exactly when its reference count is 1 (only the cache holds
it), and post a closure erasing the id from the worker private copy to
`mThread->mWorkQueue`; the post statement sits after the refcount
conditional and runs for every walked entry.  Returns the surviving
main-map entries and the posted ids. -/
def skinCullPass (mainMap : List SkinMapEntry) : List SkinMapEntry × List Nat :=
  (mainMap.filter (fun e => e.numRefs ≠ 1), mainMap.map (fun e => e.id))

/-- Worker-side effect of draining the posted closures
(llmeshrepository.cpp:4656-4660): each posted id is erased from the
worker private skin map. -/
def runPostedErases (workerMap posted : List Nat) : List Nat :=
  workerMap.filter (fun id => ¬ posted.contains id)

/-! ## Cross-thread request protocol (header, LOD and skin pipelines)

State of the tables that llmeshrepository.cpp routes header, LOD and
skin requests through, tracked as per-key occupancy counts.  The real
queues are lists; their order only selects which element a drain pops
first, and the counted safety properties do not depend on it, so a
drain step may pop any queued element.  Parse tasks posted to
`mMeshThreadPool` either deliver to a completion queue, re-queue the
request, or drop on shutdown; the model keeps such a task inside the
queue count it was popped from, a superset of the real interleavings
for every counted quantity. -/

/-- Combined registry (main-thread) and `LLMeshRepoThread` state. -/
structure MeshSys where
  /-- `mLoadingMeshes[lod]` has an entry for the id (args: id, lod). -/
  entry : Nat → Nat → Bool
  /-- `PendingRequestLOD` occupancy of `mPendingRequests` per (id, lod). -/
  pendReq : Nat → Nat → Nat
  /-- `mLoadingSkins` has an entry for the id. -/
  loadingSkins : Nat → Bool
  /-- `PendingRequestUUID` (skin) occupancy of `mPendingRequests`. -/
  pendSkin : Nat → Nat
  /-- `mPendingLOD` entry: per-LOD pending counts. -/
  pendLOD : Nat → Option (Nat → Nat)
  /-- `mHeaderReqQ` occupancy per id. -/
  headerQ : Nat → Nat
  /-- `mLODReqQ` occupancy per (id, lod). -/
  lodQ : Nat → Nat → Nat
  /-- `mSkinRequests` occupancy per id. -/
  skinQ : Nat → Nat
  /-- Outstanding `LLMeshHeaderHandler` handles per id. -/
  hdrFly : Nat → Nat
  /-- Outstanding `LLMeshLODHandler` handles per (id, lod). -/
  lodFly : Nat → Nat → Nat
  /-- Outstanding `LLMeshSkinInfoHandler` handles per id. -/
  skinFly : Nat → Nat
  /-- `mLoadedQ` and `mUnavailableQ` entries not yet delivered. -/
  doneQ : Nat → Nat → Nat
  /-- `mSkinInfoQ` and `mSkinUnavailableQ` entries not yet delivered. -/
  skinDoneQ : Nat → Nat
  /-- `mMeshHeader` entry: `some true` when the stored header is usable
  (positive `mHeaderSize`), `some false` for a stored 404/empty header. -/
  header : Nat → Option Bool

def bump1 (f : Nat → Nat) (a : Nat) : Nat → Nat :=
  fun x => if x = a then f x + 1 else f x

def dec1 (f : Nat → Nat) (a : Nat) : Nat → Nat :=
  fun x => if x = a then f x - 1 else f x

def bump2 (f : Nat → Nat → Nat) (a b : Nat) : Nat → Nat → Nat :=
  fun x y => if x = a ∧ y = b then f x y + 1 else f x y

def dec2 (f : Nat → Nat → Nat) (a b : Nat) : Nat → Nat → Nat :=
  fun x y => if x = a ∧ y = b then f x y - 1 else f x y

def setAt {α : Type} (f : Nat → α) (a : Nat) (v : α) : Nat → α :=
  fun x => if x = a then v else f x

def setAt2 {α : Type} (f : Nat → Nat → α) (a b : Nat) (v : α) : Nat → Nat → α :=
  fun x y => if x = a ∧ y = b then v else f x y

/-- Empty protocol state (viewer start). -/
def MeshSys.init : MeshSys where
  entry := fun _ _ => false
  pendReq := fun _ _ => 0
  loadingSkins := fun _ => false
  pendSkin := fun _ => 0
  pendLOD := fun _ => none
  headerQ := fun _ => 0
  lodQ := fun _ _ => 0
  skinQ := fun _ => 0
  hdrFly := fun _ => 0
  lodFly := fun _ _ => 0
  skinFly := fun _ => 0
  doneQ := fun _ _ => 0
  skinDoneQ := fun _ => 0
  header := fun _ => none

/-- `LLMeshRepoThread::loadMeshLOD` (llmeshrepository.cpp:1344-1386):
with a stored header the request goes straight onto `mLODReqQ`;
otherwise it coalesces into an existing `mPendingLOD` entry, or creates
the entry and pushes the one header request. -/
def MeshSys.loadMeshLOD (s : MeshSys) (id lod : Nat) : MeshSys :=
  match s.header id with
  | some _ => { s with lodQ := bump2 s.lodQ id lod }
  | none =>
    match s.pendLOD id with
    | some a =>
      if lod < LLModel_NUM_LODS then
        { s with pendLOD := setAt s.pendLOD id (some (bump1 a lod)) }
      else s
    | none =>
      { s with
          pendLOD := setAt s.pendLOD id (some (fun l => if l = lod then 1 else 0)),
          headerQ := bump1 s.headerQ id }

/-- LOD request push of `headerReceived` (llmeshrepository.cpp:2437-2453):
one `mLODReqQ` push per pending LOD with positive declared size that was
not satisfied opportunistically.  Pushes happen only on a usable header:
on the 404/early paths the function-local size array keeps its
initialiser and no entry passes the positive-size test. -/
def arrivePushL (pend : Nat → Nat) (good : Bool) (sizePos fitOk : Nat → Bool) (l : Nat) : Nat :=
  if l < LLModel_NUM_LODS ∧ 0 < pend l ∧ good = true ∧ sizePos l = true ∧ fitOk l = false
  then 1 else 0

/-- Opportunistic LOD delivery of `headerReceived`
(llmeshrepository.cpp:2439-2446): one `mLoadedQ` push per pending LOD
satisfied from the in-hand bytes. -/
def arrivePushD (pend : Nat → Nat) (good : Bool) (sizePos fitOk : Nat → Bool) (l : Nat) : Nat :=
  if l < LLModel_NUM_LODS ∧ 0 < pend l ∧ good = true ∧ sizePos l = true ∧ fitOk l = true
  then 1 else 0

/-- Effect of `headerReceived` on the protocol state
(llmeshrepository.cpp:2286-2460 plus its callers).  `good` is whether
the stored header is usable; `sizePos l` whether the declared size of
LOD `l` is positive; `fitOk l` whether LOD `l` both fit inside the
in-hand bytes and parsed (delivered straight to `mLoadedQ`);
`broadcast` models the unavailable-for-all-LODs pushes the header
handler performs when the stored header is unusable
(llmeshrepository.cpp:3865-3877); `skinPresent` whether the stored
header declares a skin, `skinSat` whether the skin was satisfied from
the in-hand bytes (otherwise a skin request is pushed - the push is not
gated on `mLoadingSkins`). -/
def MeshSys.arrive (s : MeshSys) (id : Nat) (good : Bool)
    (sizePos fitOk : Nat → Bool) (broadcast skinPresent skinSat : Bool) : MeshSys :=
  let pend : Nat → Nat := (s.pendLOD id).getD (fun _ => 0)
  { s with
    header := setAt s.header id (some good),
    pendLOD := setAt s.pendLOD id none,
    lodQ := fun i l => s.lodQ i l +
      (if i = id then arrivePushL pend good sizePos fitOk l else 0),
    doneQ := fun i l => s.doneQ i l +
      (if i = id then arrivePushD pend good sizePos fitOk l else 0) +
      (if i = id ∧ l < LLVolumeLODGroup_NUM_LODS ∧ broadcast = true then 1 else 0),
    skinQ := fun i => s.skinQ i +
      (if i = id ∧ good = true ∧ skinPresent = true ∧ skinSat = false then 1 else 0),
    skinDoneQ := fun i => s.skinDoneQ i +
      (if i = id ∧ good = true ∧ skinPresent = true ∧ skinSat = true then 1 else 0),
    loadingSkins := fun i =>
      if i = id then s.loadingSkins i || (good && skinPresent) else s.loadingSkins i }

/-- One interleaved scheduler step of the pipeline.  Each constructor
cites the code it abstracts; handler completion (the `onCompleted`
callback plus the `mHttpRequestSet` erase at its exit) is one step. -/
inductive Step : MeshSys → MeshSys → Prop where
  /-- `LLMeshRepository::loadMesh`, first request for this (id, lod)
  (llmeshrepository.cpp:4417-4424). -/
  | loadMeshNew (s : MeshSys) (id lod : Nat)
      (h4 : lod < LLVolumeLODGroup_NUM_LODS) (hent : s.entry id lod = false) :
      Step s { s with entry := setAt2 s.entry id lod true, pendReq := bump2 s.pendReq id lod }
  /-- `LLMeshRepository::loadMesh`, request pending: coalesce
  (llmeshrepository.cpp:4410-4416). -/
  | loadMeshCoalesce (s : MeshSys) (id lod : Nat)
      (h4 : lod < LLVolumeLODGroup_NUM_LODS) (hent : s.entry id lod = true) :
      Step s s
  /-- `notifyLoadedMeshes` forwards one pending LOD request to the
  worker (llmeshrepository.cpp:4768-4774). -/
  | dispatchLod (s : MeshSys) (id lod : Nat) (h : 0 < s.pendReq id lod) :
      Step s (MeshSys.loadMeshLOD { s with pendReq := dec2 s.pendReq id lod } id lod)
  /-- `LLMeshRepository::getSkinInfo`, first request for this id
  (llmeshrepository.cpp:4978-4984). -/
  | getSkinNew (s : MeshSys) (id : Nat) (hent : s.loadingSkins id = false) :
      Step s { s with loadingSkins := setAt s.loadingSkins id true,
                      pendSkin := bump1 s.pendSkin id }
  /-- `LLMeshRepository::getSkinInfo`, request pending: coalesce
  (llmeshrepository.cpp:4971-4977). -/
  | getSkinCoalesce (s : MeshSys) (id : Nat) (hent : s.loadingSkins id = true) :
      Step s s
  /-- `notifyLoadedMeshes` forwards one pending skin request;
  `loadMeshSkinInfo` pushes unconditionally
  (llmeshrepository.cpp:4775-4780, 1313-1316). -/
  | dispatchSkin (s : MeshSys) (id : Nat) (h : 0 < s.pendSkin id) :
      Step s { s with pendSkin := dec1 s.pendSkin id, skinQ := bump1 s.skinQ id }
  /-- Worker pops a header request, cache miss or corrupt cache, issues
  the byte-range GET (llmeshrepository.cpp:1157-1199, 2045-2081). -/
  | drainHeaderIssue (s : MeshSys) (id : Nat) (h : 0 < s.headerQ id) :
      Step s { s with headerQ := dec1 s.headerQ id, hdrFly := bump1 s.hdrFly id }
  /-- Worker pops a header request and satisfies it from the cache:
  `fetchMeshHeader` cache hit with `headerReceived == MESH_OK`
  (llmeshrepository.cpp:2004-2043); the cache path never broadcasts. -/
  | drainHeaderArrive (s : MeshSys) (id : Nat)
      (good : Bool) (sizePos fitOk : Nat → Bool) (skinPresent skinSat : Bool)
      (h : 0 < s.headerQ id) :
      Step s (MeshSys.arrive { s with headerQ := dec1 s.headerQ id } id good
        sizePos fitOk false skinPresent skinSat)
  /-- Worker pops a header request and drops it: empty capability url,
  or a failed issue with retries exhausted
  (llmeshrepository.cpp:2055, 1178-1187). -/
  | drainHeaderDrop (s : MeshSys) (id : Nat) (h : 0 < s.headerQ id) :
      Step s { s with headerQ := dec1 s.headerQ id }
  /-- Header handle completes and `headerReceived` stores a header
  (llmeshrepository.cpp:3767-3878); the handler broadcasts
  mesh-unavailable only when the stored header is unusable
  (llmeshrepository.cpp:3865-3877). -/
  | hdrArrive (s : MeshSys) (id : Nat)
      (good : Bool) (sizePos fitOk : Nat → Bool) (broadcast skinPresent skinSat : Bool)
      (h : 0 < s.hdrFly id) (hb : broadcast = true → good = false) :
      Step s (MeshSys.arrive { s with hdrFly := dec1 s.hdrFly id } id good
        sizePos fitOk broadcast skinPresent skinSat)
  /-- Header handle completes with an HTTP failure or a parse failure:
  nothing stored, mesh-unavailable pushed for every render LOD
  (llmeshrepository.cpp:3752-3765, 3781-3795). -/
  | hdrFail (s : MeshSys) (id : Nat) (h : 0 < s.hdrFly id) :
      Step s { s with hdrFly := dec1 s.hdrFly id,
                      doneQ := fun i l => s.doneQ i l +
                        (if i = id ∧ l < LLVolumeLODGroup_NUM_LODS then 1 else 0) }
  /-- Header handle cancelled while unprocessed: the handler destructor
  re-queues the header request (llmeshrepository.cpp:3736-3750). -/
  | hdrCancel (s : MeshSys) (id : Nat) (h : 0 < s.hdrFly id) :
      Step s { s with hdrFly := dec1 s.hdrFly id, headerQ := bump1 s.headerQ id }
  /-- Worker pops a LOD request and issues the byte-range GET; only a
  usable stored header reaches the issue path
  (llmeshrepository.cpp:2108-2117, 2242-2264). -/
  | drainLodIssue (s : MeshSys) (id lod : Nat) (h : 0 < s.lodQ id lod)
      (hg : s.header id = some true) :
      Step s { s with lodQ := dec2 s.lodQ id lod, lodFly := bump2 s.lodFly id lod }
  /-- Worker pops a LOD request and it terminates into a completion
  queue: cache-hit parse delivered, or an unavailable push
  (llmeshrepository.cpp:2124-2232, 2266-2276, 1136-1142). -/
  | drainLodDone (s : MeshSys) (id lod : Nat) (h : 0 < s.lodQ id lod) :
      Step s { s with lodQ := dec2 s.lodQ id lod, doneQ := bump2 s.doneQ id lod }
  /-- Worker pops a LOD request and it dies silently (unusable stored
  header, llmeshrepository.cpp:2278-2281, or shutdown drop). -/
  | drainLodSilent (s : MeshSys) (id lod : Nat) (h : 0 < s.lodQ id lod) :
      Step s { s with lodQ := dec2 s.lodQ id lod }
  /-- LOD handle completes and terminates into a completion queue
  (llmeshrepository.cpp:3894-3958). -/
  | lodFlyDone (s : MeshSys) (id lod : Nat) (h : 0 < s.lodFly id lod) :
      Step s { s with lodFly := dec2 s.lodFly id lod, doneQ := bump2 s.doneQ id lod }
  /-- LOD handle cancelled while unprocessed: the handler destructor
  re-queues via `lockAndLoadMeshLOD` (llmeshrepository.cpp:3881-3892). -/
  | lodFlyCancel (s : MeshSys) (id lod : Nat) (h : 0 < s.lodFly id lod) :
      Step s (MeshSys.loadMeshLOD { s with lodFly := dec2 s.lodFly id lod } id lod)
  /-- LOD handle dropped at shutdown (llmeshrepository.cpp:3972-3976). -/
  | lodFlySilent (s : MeshSys) (id lod : Nat) (h : 0 < s.lodFly id lod) :
      Step s { s with lodFly := dec2 s.lodFly id lod }
  /-- Main thread delivers one loaded/unavailable LOD completion and
  erases the loading-table entry (llmeshrepository.cpp:4867-4947). -/
  | deliver (s : MeshSys) (id lod : Nat) (h : 0 < s.doneQ id lod) :
      Step s { s with doneQ := dec2 s.doneQ id lod, entry := setAt2 s.entry id lod false }
  /-- Worker pops a skin request and issues the byte-range GET; only a
  usable stored header reaches the issue path
  (llmeshrepository.cpp:1583-1592, 1697-1724). -/
  | drainSkinIssue (s : MeshSys) (id : Nat) (h : 0 < s.skinQ id)
      (hg : s.header id = some true) :
      Step s { s with skinQ := dec1 s.skinQ id, skinFly := bump1 s.skinFly id }
  /-- Worker pops a skin request and it terminates into a skin
  completion queue (cache-hit parse, unavailable pushes, retries
  exhausted; llmeshrepository.cpp:1594-1695, 1726-1736, 1088-1093). -/
  | drainSkinDone (s : MeshSys) (id : Nat) (h : 0 < s.skinQ id) :
      Step s { s with skinQ := dec1 s.skinQ id, skinDoneQ := bump1 s.skinDoneQ id }
  /-- Worker pops a skin request and it dies silently (unusable stored
  header, llmeshrepository.cpp:1738-1741, or shutdown drop). -/
  | drainSkinSilent (s : MeshSys) (id : Nat) (h : 0 < s.skinQ id) :
      Step s { s with skinQ := dec1 s.skinQ id }
  /-- Skin handle completes into a skin completion queue
  (llmeshrepository.cpp:4020-4099). -/
  | skinFlyDone (s : MeshSys) (id : Nat) (h : 0 < s.skinFly id) :
      Step s { s with skinFly := dec1 s.skinFly id, skinDoneQ := bump1 s.skinDoneQ id }
  /-- Skin handle cancelled: the skin handler destructor only logs. -/
  | skinFlySilent (s : MeshSys) (id : Nat) (h : 0 < s.skinFly id) :
      Step s { s with skinFly := dec1 s.skinFly id }
  /-- Main thread delivers one skin completion and erases the
  `mLoadingSkins` entry (llmeshrepository.cpp:4811-4845). -/
  | deliverSkin (s : MeshSys) (id : Nat) (h : 0 < s.skinDoneQ id) :
      Step s { s with skinDoneQ := dec1 s.skinDoneQ id,
                      loadingSkins := setAt s.loadingSkins id false }

/-- States reachable from viewer start. -/
inductive Reachable : MeshSys → Prop where
  | init : Reachable MeshSys.init
  | step {s s2 : MeshSys} : Reachable s → Step s s2 → Reachable s2

/-- Header-pipeline tokens alive for an id: queued header requests plus
outstanding header handles. -/
def hdrTok (s : MeshSys) (id : Nat) : Nat := s.headerQ id + s.hdrFly id

/-- Whether the `mPendingLOD` entry records a pending count for the
LOD (collapsed to at most one token: `headerReceived` pushes at most
one LOD request per LOD however large the count). -/
def pTok (s : MeshSys) (id lod : Nat) : Nat :=
  match s.pendLOD id with
  | some a => if 0 < a lod then 1 else 0
  | none => 0

/-- LOD-pipeline tokens alive for (id, lod) once a header is stored:
registry pending requests, queued LOD requests, outstanding handles and
undelivered completions. -/
def lodTok (s : MeshSys) (id lod : Nat) : Nat :=
  s.pendReq id lod + s.lodQ id lod + s.lodFly id lod + s.doneQ id lod

/-- Inductive invariant of the pipeline.  The clauses about states with
no stored header (`pre...`, `none...`) carry the conservation argument
across the header hand-off; `goodTok` is the conservation once a usable
header is stored, and `hdrAtMostOne` the header-pipeline conservation. -/
structure Inv (s : MeshSys) : Prop where
  hdrAtMostOne : ∀ id, hdrTok s id ≤ 1
  hdrDone : ∀ id, s.header id ≠ none → hdrTok s id = 0
  hdrTokPend : ∀ id, 0 < hdrTok s id → s.pendLOD id ≠ none
  hdrTokNoDone : ∀ id lod, 0 < hdrTok s id → s.doneQ id lod = 0
  noneDone : ∀ id lod, s.header id = none → 0 < s.doneQ id lod → s.pendLOD id ≠ none
  noneNoLod : ∀ id lod, s.header id = none → s.lodQ id lod = 0 ∧ s.lodFly id lod = 0
  badNoFly : ∀ id lod, s.header id = some false → s.lodFly id lod = 0
  goodTok : ∀ id lod, s.header id = some true → lodTok s id lod ≤ 1
  goodEntry : ∀ id lod, s.header id = some true → s.entry id lod = false →
      lodTok s id lod = 0
  preTok : ∀ id lod, s.header id = none →
      (s.pendLOD id = none ∨ 0 < hdrTok s id) →
      s.pendReq id lod + pTok s id lod ≤ 1
  preEntry : ∀ id lod, s.header id = none →
      (s.pendLOD id = none ∨ 0 < hdrTok s id) → s.entry id lod = false →
      s.pendReq id lod + pTok s id lod = 0

theorem inv_init : Inv MeshSys.init := by
  constructor <;> intros <;> simp_all [MeshSys.init, hdrTok, pTok, lodTok]

/-- Steps that only touch the skin-pipeline fields preserve the
invariant: no clause mentions them. -/
theorem inv_skinOnly (s : MeshSys) (q1 q2 q3 q4 : Nat → Nat) (b : Nat → Bool)
    (hInv : Inv s) :
    Inv { s with pendSkin := q1, skinQ := q2, skinFly := q3,
                 skinDoneQ := q4, loadingSkins := b } := by
  obtain ⟨A, B, C, D, E, F, G, H, I, J, K⟩ := hInv
  exact ⟨A, B, C, D, E, F, G, H, I, J, K⟩

theorem inv_loadMeshNew (s : MeshSys) (id lod : Nat)
    (hent : s.entry id lod = false) (hInv : Inv s) :
    Inv { s with entry := setAt2 s.entry id lod true,
                 pendReq := bump2 s.pendReq id lod } := by
  obtain ⟨A, B, C, D, E, F, G, H, I, J, K⟩ := hInv
  refine ⟨A, B, C, D, E, F, G, ?_, ?_, ?_, ?_⟩
  · intro i l hh
    show (if i = id ∧ l = lod then s.pendReq i l + 1 else s.pendReq i l)
        + s.lodQ i l + s.lodFly i l + s.doneQ i l ≤ 1
    by_cases hc : i = id ∧ l = lod
    · rw [if_pos hc]
      obtain ⟨h1, h2⟩ := hc; subst h1; subst h2
      have h0 : lodTok s i l = 0 := I i l hh hent
      unfold lodTok at h0
      omega
    · rw [if_neg hc]
      exact H i l hh
  · intro i l hh he
    have he2 : (if i = id ∧ l = lod then true else s.entry i l) = false := he
    show (if i = id ∧ l = lod then s.pendReq i l + 1 else s.pendReq i l)
        + s.lodQ i l + s.lodFly i l + s.doneQ i l = 0
    by_cases hc : i = id ∧ l = lod
    · rw [if_pos hc] at he2; cases he2
    · rw [if_neg hc] at he2
      rw [if_neg hc]
      exact I i l hh he2
  · intro i l hh hp
    show (if i = id ∧ l = lod then s.pendReq i l + 1 else s.pendReq i l)
        + pTok s i l ≤ 1
    by_cases hc : i = id ∧ l = lod
    · rw [if_pos hc]
      obtain ⟨h1, h2⟩ := hc; subst h1; subst h2
      have h0 := K i l hh hp hent
      omega
    · rw [if_neg hc]
      exact J i l hh hp
  · intro i l hh hp he
    have he2 : (if i = id ∧ l = lod then true else s.entry i l) = false := he
    show (if i = id ∧ l = lod then s.pendReq i l + 1 else s.pendReq i l)
        + pTok s i l = 0
    by_cases hc : i = id ∧ l = lod
    · rw [if_pos hc] at he2; cases he2
    · rw [if_neg hc] at he2
      rw [if_neg hc]
      exact K i l hh hp he2

theorem inv_drainHeaderIssue (s : MeshSys) (id : Nat)
    (h : 0 < s.headerQ id) (hInv : Inv s) :
    Inv { s with headerQ := dec1 s.headerQ id, hdrFly := bump1 s.hdrFly id } := by
  have htok : ∀ i,
      hdrTok { s with headerQ := dec1 s.headerQ id, hdrFly := bump1 s.hdrFly id } i
        = hdrTok s i := by
    intro i
    show (if i = id then s.headerQ i - 1 else s.headerQ i)
        + (if i = id then s.hdrFly i + 1 else s.hdrFly i)
        = s.headerQ i + s.hdrFly i
    by_cases hi : i = id
    · rw [if_pos hi, if_pos hi]; subst hi; omega
    · rw [if_neg hi, if_neg hi]
  obtain ⟨A, B, C, D, E, F, G, H, I, J, K⟩ := hInv
  refine ⟨?_, ?_, ?_, ?_, E, F, G, H, I, ?_, ?_⟩
  · intro i; rw [htok i]; exact A i
  · intro i hh; rw [htok i]; exact B i hh
  · intro i hp; rw [htok i] at hp; exact C i hp
  · intro i l hp; rw [htok i] at hp; exact D i l hp
  · intro i l hh hp
    refine J i l hh ?_
    rcases hp with hp | hp
    · exact Or.inl hp
    · rw [htok i] at hp; exact Or.inr hp
  · intro i l hh hp he
    refine K i l hh ?_ he
    rcases hp with hp | hp
    · exact Or.inl hp
    · rw [htok i] at hp; exact Or.inr hp

theorem inv_hdrCancel (s : MeshSys) (id : Nat)
    (h : 0 < s.hdrFly id) (hInv : Inv s) :
    Inv { s with hdrFly := dec1 s.hdrFly id, headerQ := bump1 s.headerQ id } := by
  have htok : ∀ i,
      hdrTok { s with hdrFly := dec1 s.hdrFly id, headerQ := bump1 s.headerQ id } i
        = hdrTok s i := by
    intro i
    show (if i = id then s.headerQ i + 1 else s.headerQ i)
        + (if i = id then s.hdrFly i - 1 else s.hdrFly i)
        = s.headerQ i + s.hdrFly i
    by_cases hi : i = id
    · rw [if_pos hi, if_pos hi]; subst hi; omega
    · rw [if_neg hi, if_neg hi]
  obtain ⟨A, B, C, D, E, F, G, H, I, J, K⟩ := hInv
  refine ⟨?_, ?_, ?_, ?_, E, F, G, H, I, ?_, ?_⟩
  · intro i; rw [htok i]; exact A i
  · intro i hh; rw [htok i]; exact B i hh
  · intro i hp; rw [htok i] at hp; exact C i hp
  · intro i l hp; rw [htok i] at hp; exact D i l hp
  · intro i l hh hp
    refine J i l hh ?_
    rcases hp with hp | hp
    · exact Or.inl hp
    · rw [htok i] at hp; exact Or.inr hp
  · intro i l hh hp he
    refine K i l hh ?_ he
    rcases hp with hp | hp
    · exact Or.inl hp
    · rw [htok i] at hp; exact Or.inr hp

theorem inv_drainHeaderDrop (s : MeshSys) (id : Nat) (hInv : Inv s) :
    Inv { s with headerQ := dec1 s.headerQ id } := by
  have htok : ∀ i,
      hdrTok { s with headerQ := dec1 s.headerQ id } i ≤ hdrTok s i := by
    intro i
    show (if i = id then s.headerQ i - 1 else s.headerQ i) + s.hdrFly i
        ≤ s.headerQ i + s.hdrFly i
    by_cases hi : i = id
    · rw [if_pos hi]; omega
    · rw [if_neg hi]
  obtain ⟨A, B, C, D, E, F, G, H, I, J, K⟩ := hInv
  refine ⟨?_, ?_, ?_, ?_, E, F, G, H, I, ?_, ?_⟩
  · intro i; exact le_trans (htok i) (A i)
  · intro i hh; have h1 := B i hh; have h2 := htok i; omega
  · intro i hp; exact C i (lt_of_lt_of_le hp (htok i))
  · intro i l hp; exact D i l (lt_of_lt_of_le hp (htok i))
  · intro i l hh hp
    refine J i l hh ?_
    rcases hp with hp | hp
    · exact Or.inl hp
    · exact Or.inr (lt_of_lt_of_le hp (htok i))
  · intro i l hh hp he
    refine K i l hh ?_ he
    rcases hp with hp | hp
    · exact Or.inl hp
    · exact Or.inr (lt_of_lt_of_le hp (htok i))

theorem inv_hdrFlyDec (s : MeshSys) (id : Nat) (hInv : Inv s) :
    Inv { s with hdrFly := dec1 s.hdrFly id } := by
  have htok : ∀ i,
      hdrTok { s with hdrFly := dec1 s.hdrFly id } i ≤ hdrTok s i := by
    intro i
    show s.headerQ i + (if i = id then s.hdrFly i - 1 else s.hdrFly i)
        ≤ s.headerQ i + s.hdrFly i
    by_cases hi : i = id
    · rw [if_pos hi]; omega
    · rw [if_neg hi]
  obtain ⟨A, B, C, D, E, F, G, H, I, J, K⟩ := hInv
  refine ⟨?_, ?_, ?_, ?_, E, F, G, H, I, ?_, ?_⟩
  · intro i; exact le_trans (htok i) (A i)
  · intro i hh; have h1 := B i hh; have h2 := htok i; omega
  · intro i hp; exact C i (lt_of_lt_of_le hp (htok i))
  · intro i l hp; exact D i l (lt_of_lt_of_le hp (htok i))
  · intro i l hh hp
    refine J i l hh ?_
    rcases hp with hp | hp
    · exact Or.inl hp
    · exact Or.inr (lt_of_lt_of_le hp (htok i))
  · intro i l hh hp he
    refine K i l hh ?_ he
    rcases hp with hp | hp
    · exact Or.inl hp
    · exact Or.inr (lt_of_lt_of_le hp (htok i))

theorem pTok_eq_some (s : MeshSys) (id lod : Nat) (a : Nat → Nat)
    (hp : s.pendLOD id = some a) : pTok s id lod = if 0 < a lod then 1 else 0 := by
  unfold pTok; rw [hp]

theorem pTok_eq_none (s : MeshSys) (id lod : Nat)
    (hp : s.pendLOD id = none) : pTok s id lod = 0 := by
  unfold pTok; rw [hp]

theorem pTok_ext (s s2 : MeshSys) (i l : Nat)
    (hp : s2.pendLOD i = s.pendLOD i) : pTok s2 i l = pTok s i l := by
  unfold pTok; rw [hp]

/-- Arrival pushes at most one token per LOD, and only for a LOD whose
pending count is positive. -/
theorem arrivePush_le (s : MeshSys) (id : Nat) (good : Bool)
    (sizePos fitOk : Nat → Bool) (l : Nat) :
    arrivePushL ((s.pendLOD id).getD (fun _ => 0)) good sizePos fitOk l
      + arrivePushD ((s.pendLOD id).getD (fun _ => 0)) good sizePos fitOk l
      ≤ pTok s id l := by
  have hval : ∀ b : Nat,
      (0 < ((s.pendLOD id).getD (fun _ => 0)) b → pTok s id b = 1) := by
    intro b hb
    cases hp : s.pendLOD id with
    | none => rw [hp] at hb; simp [Option.getD] at hb
    | some a =>
      rw [hp] at hb; simp only [Option.getD] at hb
      rw [pTok_eq_some s id b a hp, if_pos hb]
  unfold arrivePushL arrivePushD
  split_ifs with h1 h2 h2
  · exfalso
    have ha := h1.2.2.2.2
    have hb := h2.2.2.2.2
    rw [ha] at hb; cases hb
  · rw [hval l h1.2.1]
  · rw [hval l h2.2.1]
  · exact Nat.zero_le _

theorem loadMeshLOD_eq_some (s : MeshSys) (id lod : Nat) (b : Bool)
    (hh : s.header id = some b) :
    MeshSys.loadMeshLOD s id lod = { s with lodQ := bump2 s.lodQ id lod } := by
  unfold MeshSys.loadMeshLOD; rw [hh]

theorem loadMeshLOD_eq_bumpPend (s : MeshSys) (id lod : Nat) (a : Nat → Nat)
    (hh : s.header id = none) (hp : s.pendLOD id = some a)
    (hl : lod < LLModel_NUM_LODS) :
    MeshSys.loadMeshLOD s id lod
      = { s with pendLOD := setAt s.pendLOD id (some (bump1 a lod)) } := by
  unfold MeshSys.loadMeshLOD; rw [hh, hp]; simp only [if_pos hl]

theorem loadMeshLOD_eq_outOfRange (s : MeshSys) (id lod : Nat) (a : Nat → Nat)
    (hh : s.header id = none) (hp : s.pendLOD id = some a)
    (hl : ¬ lod < LLModel_NUM_LODS) :
    MeshSys.loadMeshLOD s id lod = s := by
  unfold MeshSys.loadMeshLOD; rw [hh, hp]; simp only [if_neg hl]

theorem loadMeshLOD_eq_fresh (s : MeshSys) (id lod : Nat)
    (hh : s.header id = none) (hp : s.pendLOD id = none) :
    MeshSys.loadMeshLOD s id lod
      = { s with pendLOD := setAt s.pendLOD id (some (fun l => if l = lod then 1 else 0)),
                 headerQ := bump1 s.headerQ id } := by
  unfold MeshSys.loadMeshLOD; rw [hh, hp]

theorem inv_dispatchLod (s : MeshSys) (id lod : Nat)
    (h : 0 < s.pendReq id lod) (hInv : Inv s) :
    Inv (MeshSys.loadMeshLOD { s with pendReq := dec2 s.pendReq id lod } id lod) := by
  obtain ⟨A, B, C, D, E, F, G, H, I, J, K⟩ := hInv
  cases hh : s.header id with
  | some b =>
    rw [loadMeshLOD_eq_some { s with pendReq := dec2 s.pendReq id lod } id lod b hh]
    refine ⟨A, B, C, D, E, ?_, G, ?_, ?_, ?_, ?_⟩
    · intro i l hh2
      have hi : ¬(i = id) := fun he => by rw [he, hh] at hh2; cases hh2
      show (if i = id ∧ l = lod then s.lodQ i l + 1 else s.lodQ i l) = 0
          ∧ s.lodFly i l = 0
      rw [if_neg (fun hc => hi hc.1)]
      exact F i l hh2
    · intro i l hh2
      show (if i = id ∧ l = lod then s.pendReq i l - 1 else s.pendReq i l)
          + (if i = id ∧ l = lod then s.lodQ i l + 1 else s.lodQ i l)
          + s.lodFly i l + s.doneQ i l ≤ 1
      have h0 := H i l hh2; unfold lodTok at h0
      by_cases hc : i = id ∧ l = lod
      · rw [if_pos hc, if_pos hc]
        obtain ⟨h1a, h2a⟩ := hc; subst h1a; subst h2a
        omega
      · rw [if_neg hc, if_neg hc]; omega
    · intro i l hh2 he
      show (if i = id ∧ l = lod then s.pendReq i l - 1 else s.pendReq i l)
          + (if i = id ∧ l = lod then s.lodQ i l + 1 else s.lodQ i l)
          + s.lodFly i l + s.doneQ i l = 0
      have h0 := I i l hh2 he; unfold lodTok at h0
      by_cases hc : i = id ∧ l = lod
      · obtain ⟨h1a, h2a⟩ := hc; subst h1a; subst h2a
        omega
      · rw [if_neg hc, if_neg hc]; omega
    · intro i l hh2 hp
      have hi : ¬(i = id) := fun he => by rw [he, hh] at hh2; cases hh2
      show (if i = id ∧ l = lod then s.pendReq i l - 1 else s.pendReq i l)
          + pTok s i l ≤ 1
      rw [if_neg (fun hc => hi hc.1)]
      exact J i l hh2 hp
    · intro i l hh2 hp he
      have hi : ¬(i = id) := fun he2 => by rw [he2, hh] at hh2; cases hh2
      show (if i = id ∧ l = lod then s.pendReq i l - 1 else s.pendReq i l)
          + pTok s i l = 0
      rw [if_neg (fun hc => hi hc.1)]
      exact K i l hh2 hp he
  | none =>
    cases hp : s.pendLOD id with
    | some a =>
      by_cases hl : lod < LLModel_NUM_LODS
      · rw [loadMeshLOD_eq_bumpPend { s with pendReq := dec2 s.pendReq id lod } id lod a hh hp hl]
        refine ⟨A, B, ?_, D, ?_, F, G, ?_, ?_, ?_, ?_⟩
        · intro i hp2
          show (if i = id then some (bump1 a lod) else s.pendLOD i) ≠ none
          by_cases hi : i = id
          · rw [if_pos hi]; simp
          · rw [if_neg hi]; exact C i hp2
        · intro i l hh2 hq
          show (if i = id then some (bump1 a lod) else s.pendLOD i) ≠ none
          by_cases hi : i = id
          · rw [if_pos hi]; simp
          · rw [if_neg hi]; exact E i l hh2 hq
        · intro i l hh2
          have hi : ¬(i = id) := fun he => by rw [he, hh] at hh2; cases hh2
          show (if i = id ∧ l = lod then s.pendReq i l - 1 else s.pendReq i l)
              + s.lodQ i l + s.lodFly i l + s.doneQ i l ≤ 1
          rw [if_neg (fun hc => hi hc.1)]
          exact H i l hh2
        · intro i l hh2 he
          have hi : ¬(i = id) := fun he2 => by rw [he2, hh] at hh2; cases hh2
          show (if i = id ∧ l = lod then s.pendReq i l - 1 else s.pendReq i l)
              + s.lodQ i l + s.lodFly i l + s.doneQ i l = 0
          rw [if_neg (fun hc => hi hc.1)]
          exact I i l hh2 he
        · intro i l hh2 hp2
          by_cases hi : i = id
          · subst hi
            rcases hp2 with hp2 | hp2
            · exfalso
              have hx : (if i = i then some (bump1 a lod) else s.pendLOD i) = none := hp2
              rw [if_pos rfl] at hx; cases hx
            · have hp3 : 0 < hdrTok s i := hp2
              have hpre := J i l hh (Or.inr hp3)
              rw [pTok_eq_some s i l a hp] at hpre
              show (if i = i ∧ l = lod then s.pendReq i l - 1 else s.pendReq i l)
                  + pTok ({ s with
                      pendReq := dec2 s.pendReq i lod,
                      pendLOD := setAt s.pendLOD i (some (bump1 a lod)) } : MeshSys) i l ≤ 1
              have hpt : pTok ({ s with
                  pendReq := dec2 s.pendReq i lod,
                  pendLOD := setAt s.pendLOD i (some (bump1 a lod)) } : MeshSys) i l
                  = if 0 < bump1 a lod l then 1 else 0 := by
                refine pTok_eq_some _ i l (bump1 a lod) ?_
                show (if i = i then some (bump1 a lod) else s.pendLOD i) = some (bump1 a lod)
                rw [if_pos rfl]
              rw [hpt]
              by_cases hll : l = lod
              · subst hll
                rw [if_pos ⟨rfl, rfl⟩]
                have hb1 : bump1 a l l = a l + 1 := by unfold bump1; rw [if_pos rfl]
                rw [hb1, if_pos (Nat.succ_pos _)]
                by_cases ha : 0 < a l
                · rw [if_pos ha] at hpre; omega
                · rw [if_neg ha] at hpre; omega
              · rw [if_neg (fun hc => hll hc.2)]
                have hb1 : bump1 a lod l = a l := by unfold bump1; rw [if_neg hll]
                rw [hb1]
                exact hpre
          · have hpe : (if i = id then some (bump1 a lod) else s.pendLOD i) = s.pendLOD i :=
              if_neg hi
            show (if i = id ∧ l = lod then s.pendReq i l - 1 else s.pendReq i l)
                + pTok ({ s with
                    pendReq := dec2 s.pendReq id lod,
                    pendLOD := setAt s.pendLOD id (some (bump1 a lod)) } : MeshSys) i l ≤ 1
            rw [if_neg (fun hc => hi hc.1), pTok_ext s _ i l hpe]
            refine J i l hh2 ?_
            rcases hp2 with hp2 | hp2
            · left
              have hx : (if i = id then some (bump1 a lod) else s.pendLOD i) = none := hp2
              rwa [if_neg hi] at hx
            · right; exact hp2
        · intro i l hh2 hp2 he
          by_cases hi : i = id
          · subst hi
            rcases hp2 with hp2 | hp2
            · exfalso
              have hx : (if i = i then some (bump1 a lod) else s.pendLOD i) = none := hp2
              rw [if_pos rfl] at hx; cases hx
            · have hp3 : 0 < hdrTok s i := hp2
              have hpre := K i l hh (Or.inr hp3) he
              rw [pTok_eq_some s i l a hp] at hpre
              by_cases hll : l = lod
              · exfalso
                subst hll
                by_cases ha : 0 < a l
                · rw [if_pos ha] at hpre; omega
                · rw [if_neg ha] at hpre; omega
              · show (if i = i ∧ l = lod then s.pendReq i l - 1 else s.pendReq i l)
                    + pTok ({ s with
                        pendReq := dec2 s.pendReq i lod,
                        pendLOD := setAt s.pendLOD i (some (bump1 a lod)) } : MeshSys) i l = 0
                have hpt : pTok ({ s with
                    pendReq := dec2 s.pendReq i lod,
                    pendLOD := setAt s.pendLOD i (some (bump1 a lod)) } : MeshSys) i l
                    = if 0 < bump1 a lod l then 1 else 0 := by
                  refine pTok_eq_some _ i l (bump1 a lod) ?_
                  show (if i = i then some (bump1 a lod) else s.pendLOD i)
                      = some (bump1 a lod)
                  rw [if_pos rfl]
                rw [if_neg (fun hc => hll hc.2), hpt]
                have hb1 : bump1 a lod l = a l := by unfold bump1; rw [if_neg hll]
                rw [hb1]
                by_cases ha : 0 < a l
                · rw [if_pos ha] at hpre; omega
                · rw [if_neg ha] at hpre; rw [if_neg ha]; omega
          · have hpe : (if i = id then some (bump1 a lod) else s.pendLOD i) = s.pendLOD i :=
              if_neg hi
            show (if i = id ∧ l = lod then s.pendReq i l - 1 else s.pendReq i l)
                + pTok ({ s with
                    pendReq := dec2 s.pendReq id lod,
                    pendLOD := setAt s.pendLOD id (some (bump1 a lod)) } : MeshSys) i l = 0
            rw [if_neg (fun hc => hi hc.1), pTok_ext s _ i l hpe]
            refine K i l hh2 ?_ he
            rcases hp2 with hp2 | hp2
            · left
              have hx : (if i = id then some (bump1 a lod) else s.pendLOD i) = none := hp2
              rwa [if_neg hi] at hx
            · right; exact hp2
      · rw [loadMeshLOD_eq_outOfRange { s with pendReq := dec2 s.pendReq id lod } id lod a hh hp hl]
        refine ⟨A, B, C, D, E, F, G, ?_, ?_, ?_, ?_⟩
        · intro i l hh2
          show (if i = id ∧ l = lod then s.pendReq i l - 1 else s.pendReq i l)
              + s.lodQ i l + s.lodFly i l + s.doneQ i l ≤ 1
          have h0 := H i l hh2; unfold lodTok at h0
          by_cases hc : i = id ∧ l = lod
          · rw [if_pos hc]; omega
          · rw [if_neg hc]; omega
        · intro i l hh2 he
          show (if i = id ∧ l = lod then s.pendReq i l - 1 else s.pendReq i l)
              + s.lodQ i l + s.lodFly i l + s.doneQ i l = 0
          have h0 := I i l hh2 he; unfold lodTok at h0
          by_cases hc : i = id ∧ l = lod
          · rw [if_pos hc]; omega
          · rw [if_neg hc]; omega
        · intro i l hh2 hp2
          show (if i = id ∧ l = lod then s.pendReq i l - 1 else s.pendReq i l)
              + pTok s i l ≤ 1
          have h0 := J i l hh2 hp2
          by_cases hc : i = id ∧ l = lod
          · rw [if_pos hc]; omega
          · rw [if_neg hc]; omega
        · intro i l hh2 hp2 he
          show (if i = id ∧ l = lod then s.pendReq i l - 1 else s.pendReq i l)
              + pTok s i l = 0
          have h0 := K i l hh2 hp2 he
          by_cases hc : i = id ∧ l = lod
          · rw [if_pos hc]; omega
          · rw [if_neg hc]; omega
    | none =>
      rw [loadMeshLOD_eq_fresh { s with pendReq := dec2 s.pendReq id lod } id lod hh hp]
      have htok0 : hdrTok s id = 0 := by
        by_contra hx
        exact C id (Nat.pos_of_ne_zero hx) hp
      have htok2 : ∀ i,
          (if i = id then s.headerQ i + 1 else s.headerQ i) + s.hdrFly i
            = if i = id then hdrTok s i + 1 else hdrTok s i := by
        intro i
        unfold hdrTok
        by_cases hi : i = id
        · rw [if_pos hi, if_pos hi]; omega
        · rw [if_neg hi, if_neg hi]
      refine ⟨?_, ?_, ?_, ?_, ?_, F, G, ?_, ?_, ?_, ?_⟩
      · intro i
        show (if i = id then s.headerQ i + 1 else s.headerQ i) + s.hdrFly i ≤ 1
        rw [htok2 i]
        by_cases hi : i = id
        · rw [if_pos hi, hi, htok0]
        · rw [if_neg hi]; exact A i
      · intro i hh2
        show (if i = id then s.headerQ i + 1 else s.headerQ i) + s.hdrFly i = 0
        by_cases hi : i = id
        · exact absurd (hi ▸ hh : s.header i = none) hh2
        · rw [htok2 i, if_neg hi]; exact B i hh2
      · intro i hp2
        show (if i = id then some (fun l2 => if l2 = lod then 1 else 0) else s.pendLOD i) ≠ none
        by_cases hi : i = id
        · rw [if_pos hi]; simp
        · rw [if_neg hi]
          have hp3 : 0 < (if i = id then s.headerQ i + 1 else s.headerQ i) + s.hdrFly i := hp2
          rw [htok2 i, if_neg hi] at hp3
          exact C i hp3
      · intro i l hp2
        have hp3 : 0 < (if i = id then s.headerQ i + 1 else s.headerQ i) + s.hdrFly i := hp2
        rw [htok2 i] at hp3
        show s.doneQ i l = 0
        by_cases hi : i = id
        · subst hi
          by_cases hq : 0 < s.doneQ i l
          · exact absurd hp (E i l hh hq)
          · omega
        · rw [if_neg hi] at hp3
          exact D i l hp3
      · intro i l hh2 hq
        show (if i = id then some (fun l2 => if l2 = lod then 1 else 0) else s.pendLOD i) ≠ none
        by_cases hi : i = id
        · rw [if_pos hi]; simp
        · rw [if_neg hi]; exact E i l hh2 hq
      · intro i l hh2
        have hi : ¬(i = id) := fun he => by rw [he, hh] at hh2; cases hh2
        show (if i = id ∧ l = lod then s.pendReq i l - 1 else s.pendReq i l)
            + s.lodQ i l + s.lodFly i l + s.doneQ i l ≤ 1
        rw [if_neg (fun hc => hi hc.1)]
        exact H i l hh2
      · intro i l hh2 he
        have hi : ¬(i = id) := fun he2 => by rw [he2, hh] at hh2; cases hh2
        show (if i = id ∧ l = lod then s.pendReq i l - 1 else s.pendReq i l)
            + s.lodQ i l + s.lodFly i l + s.doneQ i l = 0
        rw [if_neg (fun hc => hi hc.1)]
        exact I i l hh2 he
      · intro i l hh2 hp2
        by_cases hi : i = id
        · subst hi
          have hpre := J i l hh (Or.inl hp)
          rw [pTok_eq_none s i l hp] at hpre
          show (if i = i ∧ l = lod then s.pendReq i l - 1 else s.pendReq i l)
              + pTok ({ s with
                  pendReq := dec2 s.pendReq i lod,
                  pendLOD := setAt s.pendLOD i (some (fun l2 => if l2 = lod then 1 else 0)),
                  headerQ := bump1 s.headerQ i } : MeshSys) i l ≤ 1
          have hpt : pTok ({ s with
              pendReq := dec2 s.pendReq i lod,
              pendLOD := setAt s.pendLOD i (some (fun l2 => if l2 = lod then 1 else 0)),
              headerQ := bump1 s.headerQ i } : MeshSys) i l
              = if 0 < (if l = lod then 1 else 0) then 1 else 0 := by
            refine pTok_eq_some _ i l (fun l2 => if l2 = lod then 1 else 0) ?_
            show (if i = i then some (fun l2 => if l2 = lod then 1 else 0) else s.pendLOD i)
                = some (fun l2 => if l2 = lod then 1 else 0)
            rw [if_pos rfl]
          rw [hpt]
          by_cases hll : l = lod
          · rw [if_pos ⟨rfl, hll⟩, if_pos (by rw [if_pos hll]; omega)]
            omega
          · rw [if_neg (fun hc => hll hc.2), if_neg (by rw [if_neg hll]; omega)]
            omega
        · have hpe : (if i = id then some (fun l2 => if l2 = lod then 1 else 0)
              else s.pendLOD i) = s.pendLOD i := if_neg hi
          show (if i = id ∧ l = lod then s.pendReq i l - 1 else s.pendReq i l)
              + pTok ({ s with
                  pendReq := dec2 s.pendReq id lod,
                  pendLOD := setAt s.pendLOD id (some (fun l2 => if l2 = lod then 1 else 0)),
                  headerQ := bump1 s.headerQ id } : MeshSys) i l ≤ 1
          rw [if_neg (fun hc => hi hc.1), pTok_ext s _ i l hpe]
          refine J i l hh2 ?_
          rcases hp2 with hp2 | hp2
          · left
            have hx : (if i = id then some (fun l2 => if l2 = lod then 1 else 0)
                else s.pendLOD i) = none := hp2
            rwa [if_neg hi] at hx
          · right
            have hp3 : 0 < (if i = id then s.headerQ i + 1 else s.headerQ i) + s.hdrFly i := hp2
            rw [htok2 i, if_neg hi] at hp3
            exact hp3
      · intro i l hh2 hp2 he
        by_cases hi : i = id
        · subst hi
          have hpre := K i l hh (Or.inl hp) he
          rw [pTok_eq_none s i l hp] at hpre
          by_cases hll : l = lod
          · exfalso; subst hll; omega
          · show (if i = i ∧ l = lod then s.pendReq i l - 1 else s.pendReq i l)
                + pTok ({ s with
                    pendReq := dec2 s.pendReq i lod,
                    pendLOD := setAt s.pendLOD i (some (fun l2 => if l2 = lod then 1 else 0)),
                    headerQ := bump1 s.headerQ i } : MeshSys) i l = 0
            have hpt : pTok ({ s with
                pendReq := dec2 s.pendReq i lod,
                pendLOD := setAt s.pendLOD i (some (fun l2 => if l2 = lod then 1 else 0)),
                headerQ := bump1 s.headerQ i } : MeshSys) i l
                = if 0 < (if l = lod then 1 else 0) then 1 else 0 := by
              refine pTok_eq_some _ i l (fun l2 => if l2 = lod then 1 else 0) ?_
              show (if i = i then some (fun l2 => if l2 = lod then 1 else 0) else s.pendLOD i)
                  = some (fun l2 => if l2 = lod then 1 else 0)
              rw [if_pos rfl]
            rw [if_neg (fun hc => hll hc.2), hpt,
              if_neg (by rw [if_neg hll]; omega)]
            omega
        · have hpe : (if i = id then some (fun l2 => if l2 = lod then 1 else 0)
              else s.pendLOD i) = s.pendLOD i := if_neg hi
          show (if i = id ∧ l = lod then s.pendReq i l - 1 else s.pendReq i l)
              + pTok ({ s with
                  pendReq := dec2 s.pendReq id lod,
                  pendLOD := setAt s.pendLOD id (some (fun l2 => if l2 = lod then 1 else 0)),
                  headerQ := bump1 s.headerQ id } : MeshSys) i l = 0
          rw [if_neg (fun hc => hi hc.1), pTok_ext s _ i l hpe]
          refine K i l hh2 ?_ he
          rcases hp2 with hp2 | hp2
          · left
            have hx : (if i = id then some (fun l2 => if l2 = lod then 1 else 0)
                else s.pendLOD i) = none := hp2
            rwa [if_neg hi] at hx
          · right
            have hp3 : 0 < (if i = id then s.headerQ i + 1 else s.headerQ i) + s.hdrFly i := hp2
            rw [htok2 i, if_neg hi] at hp3
            exact hp3

theorem inv_drainLodIssue (s : MeshSys) (id lod : Nat)
    (h : 0 < s.lodQ id lod) (hg : s.header id = some true) (hInv : Inv s) :
    Inv { s with lodQ := dec2 s.lodQ id lod, lodFly := bump2 s.lodFly id lod } := by
  obtain ⟨A, B, C, D, E, F, G, H, I, J, K⟩ := hInv
  refine ⟨A, B, C, D, E, ?_, ?_, ?_, ?_, J, K⟩
  · intro i l hh
    show (if i = id ∧ l = lod then s.lodQ i l - 1 else s.lodQ i l) = 0
        ∧ (if i = id ∧ l = lod then s.lodFly i l + 1 else s.lodFly i l) = 0
    by_cases hc : i = id ∧ l = lod
    · rw [hc.1, hg] at hh; cases hh
    · rw [if_neg hc, if_neg hc]; exact F i l hh
  · intro i l hh
    show (if i = id ∧ l = lod then s.lodFly i l + 1 else s.lodFly i l) = 0
    by_cases hc : i = id ∧ l = lod
    · rw [hc.1, hg] at hh; cases hh
    · rw [if_neg hc]; exact G i l hh
  · intro i l hh
    show s.pendReq i l + (if i = id ∧ l = lod then s.lodQ i l - 1 else s.lodQ i l)
        + (if i = id ∧ l = lod then s.lodFly i l + 1 else s.lodFly i l) + s.doneQ i l ≤ 1
    by_cases hc : i = id ∧ l = lod
    · rw [if_pos hc, if_pos hc]
      obtain ⟨h1, h2⟩ := hc; subst h1; subst h2
      have h0 := H i l hh; unfold lodTok at h0; omega
    · rw [if_neg hc, if_neg hc]; exact H i l hh
  · intro i l hh he
    show s.pendReq i l + (if i = id ∧ l = lod then s.lodQ i l - 1 else s.lodQ i l)
        + (if i = id ∧ l = lod then s.lodFly i l + 1 else s.lodFly i l) + s.doneQ i l = 0
    by_cases hc : i = id ∧ l = lod
    · obtain ⟨h1, h2⟩ := hc; subst h1; subst h2
      have h0 := I i l hh he; unfold lodTok at h0; omega
    · rw [if_neg hc, if_neg hc]; exact I i l hh he

theorem inv_drainLodDone (s : MeshSys) (id lod : Nat)
    (h : 0 < s.lodQ id lod) (hInv : Inv s) :
    Inv { s with lodQ := dec2 s.lodQ id lod, doneQ := bump2 s.doneQ id lod } := by
  obtain ⟨A, B, C, D, E, F, G, H, I, J, K⟩ := hInv
  have hn : s.header id ≠ none := by
    intro hnone
    have := (F id lod hnone).1; omega
  refine ⟨A, B, C, ?_, ?_, ?_, G, ?_, ?_, J, K⟩
  · intro i l hp
    show (if i = id ∧ l = lod then s.doneQ i l + 1 else s.doneQ i l) = 0
    by_cases hc : i = id ∧ l = lod
    · exfalso
      have h0 := B i (by rw [hc.1]; exact hn)
      have hp2 : 0 < hdrTok s i := hp
      omega
    · rw [if_neg hc]; exact D i l hp
  · intro i l hh hq
    by_cases hc : i = id ∧ l = lod
    · exact absurd hh (by rw [hc.1]; exact hn)
    · show s.pendLOD i ≠ none
      have hq2 : 0 < (if i = id ∧ l = lod then s.doneQ i l + 1 else s.doneQ i l) := hq
      rw [if_neg hc] at hq2
      exact E i l hh hq2
  · intro i l hh
    show (if i = id ∧ l = lod then s.lodQ i l - 1 else s.lodQ i l) = 0 ∧ s.lodFly i l = 0
    by_cases hc : i = id ∧ l = lod
    · exact absurd hh (by rw [hc.1]; exact hn)
    · rw [if_neg hc]; exact F i l hh
  · intro i l hh
    show s.pendReq i l + (if i = id ∧ l = lod then s.lodQ i l - 1 else s.lodQ i l)
        + s.lodFly i l + (if i = id ∧ l = lod then s.doneQ i l + 1 else s.doneQ i l) ≤ 1
    by_cases hc : i = id ∧ l = lod
    · rw [if_pos hc, if_pos hc]
      obtain ⟨h1, h2⟩ := hc; subst h1; subst h2
      have h0 := H i l hh; unfold lodTok at h0; omega
    · rw [if_neg hc, if_neg hc]; exact H i l hh
  · intro i l hh he
    show s.pendReq i l + (if i = id ∧ l = lod then s.lodQ i l - 1 else s.lodQ i l)
        + s.lodFly i l + (if i = id ∧ l = lod then s.doneQ i l + 1 else s.doneQ i l) = 0
    by_cases hc : i = id ∧ l = lod
    · obtain ⟨h1, h2⟩ := hc; subst h1; subst h2
      have h0 := I i l hh he; unfold lodTok at h0; omega
    · rw [if_neg hc, if_neg hc]; exact I i l hh he

theorem inv_drainLodSilent (s : MeshSys) (id lod : Nat) (hInv : Inv s) :
    Inv { s with lodQ := dec2 s.lodQ id lod } := by
  obtain ⟨A, B, C, D, E, F, G, H, I, J, K⟩ := hInv
  refine ⟨A, B, C, D, E, ?_, G, ?_, ?_, J, K⟩
  · intro i l hh
    show (if i = id ∧ l = lod then s.lodQ i l - 1 else s.lodQ i l) = 0 ∧ s.lodFly i l = 0
    have h0 := F i l hh
    by_cases hc : i = id ∧ l = lod
    · rw [if_pos hc]; exact ⟨by omega, h0.2⟩
    · rw [if_neg hc]; exact h0
  · intro i l hh
    show s.pendReq i l + (if i = id ∧ l = lod then s.lodQ i l - 1 else s.lodQ i l)
        + s.lodFly i l + s.doneQ i l ≤ 1
    have h0 := H i l hh; unfold lodTok at h0
    by_cases hc : i = id ∧ l = lod
    · rw [if_pos hc]; omega
    · rw [if_neg hc]; omega
  · intro i l hh he
    show s.pendReq i l + (if i = id ∧ l = lod then s.lodQ i l - 1 else s.lodQ i l)
        + s.lodFly i l + s.doneQ i l = 0
    have h0 := I i l hh he; unfold lodTok at h0
    by_cases hc : i = id ∧ l = lod
    · rw [if_pos hc]; omega
    · rw [if_neg hc]; omega

theorem inv_lodFlyDone (s : MeshSys) (id lod : Nat)
    (h : 0 < s.lodFly id lod) (hInv : Inv s) :
    Inv { s with lodFly := dec2 s.lodFly id lod, doneQ := bump2 s.doneQ id lod } := by
  obtain ⟨A, B, C, D, E, F, G, H, I, J, K⟩ := hInv
  have hn : s.header id ≠ none := by
    intro hnone
    have := (F id lod hnone).2; omega
  refine ⟨A, B, C, ?_, ?_, ?_, ?_, ?_, ?_, J, K⟩
  · intro i l hp
    show (if i = id ∧ l = lod then s.doneQ i l + 1 else s.doneQ i l) = 0
    by_cases hc : i = id ∧ l = lod
    · exfalso
      have h0 := B i (by rw [hc.1]; exact hn)
      have hp2 : 0 < hdrTok s i := hp
      omega
    · rw [if_neg hc]; exact D i l hp
  · intro i l hh hq
    by_cases hc : i = id ∧ l = lod
    · exact absurd hh (by rw [hc.1]; exact hn)
    · show s.pendLOD i ≠ none
      have hq2 : 0 < (if i = id ∧ l = lod then s.doneQ i l + 1 else s.doneQ i l) := hq
      rw [if_neg hc] at hq2
      exact E i l hh hq2
  · intro i l hh
    show s.lodQ i l = 0
        ∧ (if i = id ∧ l = lod then s.lodFly i l - 1 else s.lodFly i l) = 0
    by_cases hc : i = id ∧ l = lod
    · exact absurd hh (by rw [hc.1]; exact hn)
    · rw [if_neg hc]; exact F i l hh
  · intro i l hh
    show (if i = id ∧ l = lod then s.lodFly i l - 1 else s.lodFly i l) = 0
    have h0 := G i l hh
    by_cases hc : i = id ∧ l = lod
    · rw [if_pos hc]
      obtain ⟨h1, h2⟩ := hc; subst h1; subst h2
      omega
    · rw [if_neg hc]; exact h0
  · intro i l hh
    show s.pendReq i l + s.lodQ i l
        + (if i = id ∧ l = lod then s.lodFly i l - 1 else s.lodFly i l)
        + (if i = id ∧ l = lod then s.doneQ i l + 1 else s.doneQ i l) ≤ 1
    by_cases hc : i = id ∧ l = lod
    · rw [if_pos hc, if_pos hc]
      obtain ⟨h1, h2⟩ := hc; subst h1; subst h2
      have h0 := H i l hh; unfold lodTok at h0; omega
    · rw [if_neg hc, if_neg hc]; exact H i l hh
  · intro i l hh he
    show s.pendReq i l + s.lodQ i l
        + (if i = id ∧ l = lod then s.lodFly i l - 1 else s.lodFly i l)
        + (if i = id ∧ l = lod then s.doneQ i l + 1 else s.doneQ i l) = 0
    by_cases hc : i = id ∧ l = lod
    · obtain ⟨h1, h2⟩ := hc; subst h1; subst h2
      have h0 := I i l hh he; unfold lodTok at h0; omega
    · rw [if_neg hc, if_neg hc]; exact I i l hh he

theorem inv_lodFlySilent (s : MeshSys) (id lod : Nat) (hInv : Inv s) :
    Inv { s with lodFly := dec2 s.lodFly id lod } := by
  obtain ⟨A, B, C, D, E, F, G, H, I, J, K⟩ := hInv
  refine ⟨A, B, C, D, E, ?_, ?_, ?_, ?_, J, K⟩
  · intro i l hh
    show s.lodQ i l = 0
        ∧ (if i = id ∧ l = lod then s.lodFly i l - 1 else s.lodFly i l) = 0
    have h0 := F i l hh
    by_cases hc : i = id ∧ l = lod
    · rw [if_pos hc]; exact ⟨h0.1, by omega⟩
    · rw [if_neg hc]; exact h0
  · intro i l hh
    show (if i = id ∧ l = lod then s.lodFly i l - 1 else s.lodFly i l) = 0
    have h0 := G i l hh
    by_cases hc : i = id ∧ l = lod
    · rw [if_pos hc]; omega
    · rw [if_neg hc]; exact h0
  · intro i l hh
    show s.pendReq i l + s.lodQ i l
        + (if i = id ∧ l = lod then s.lodFly i l - 1 else s.lodFly i l) + s.doneQ i l ≤ 1
    have h0 := H i l hh; unfold lodTok at h0
    by_cases hc : i = id ∧ l = lod
    · rw [if_pos hc]; omega
    · rw [if_neg hc]; omega
  · intro i l hh he
    show s.pendReq i l + s.lodQ i l
        + (if i = id ∧ l = lod then s.lodFly i l - 1 else s.lodFly i l) + s.doneQ i l = 0
    have h0 := I i l hh he; unfold lodTok at h0
    by_cases hc : i = id ∧ l = lod
    · rw [if_pos hc]; omega
    · rw [if_neg hc]; omega

theorem inv_deliver (s : MeshSys) (id lod : Nat)
    (h : 0 < s.doneQ id lod) (hInv : Inv s) :
    Inv { s with doneQ := dec2 s.doneQ id lod, entry := setAt2 s.entry id lod false } := by
  obtain ⟨A, B, C, D, E, F, G, H, I, J, K⟩ := hInv
  refine ⟨A, B, C, ?_, ?_, F, G, ?_, ?_, J, ?_⟩
  · intro i l hp
    show (if i = id ∧ l = lod then s.doneQ i l - 1 else s.doneQ i l) = 0
    have h0 := D i l hp
    by_cases hc : i = id ∧ l = lod
    · rw [if_pos hc]; omega
    · rw [if_neg hc]; exact h0
  · intro i l hh hq
    show s.pendLOD i ≠ none
    have hq2 : 0 < (if i = id ∧ l = lod then s.doneQ i l - 1 else s.doneQ i l) := hq
    by_cases hc : i = id ∧ l = lod
    · rw [if_pos hc] at hq2
      exact E i l hh (by omega)
    · rw [if_neg hc] at hq2
      exact E i l hh hq2
  · intro i l hh
    show s.pendReq i l + s.lodQ i l + s.lodFly i l
        + (if i = id ∧ l = lod then s.doneQ i l - 1 else s.doneQ i l) ≤ 1
    have h0 := H i l hh; unfold lodTok at h0
    by_cases hc : i = id ∧ l = lod
    · rw [if_pos hc]; omega
    · rw [if_neg hc]; omega
  · intro i l hh he
    show s.pendReq i l + s.lodQ i l + s.lodFly i l
        + (if i = id ∧ l = lod then s.doneQ i l - 1 else s.doneQ i l) = 0
    by_cases hc : i = id ∧ l = lod
    · rw [if_pos hc]
      obtain ⟨h1, h2⟩ := hc; subst h1; subst h2
      have h0 := H i l hh; unfold lodTok at h0
      omega
    · rw [if_neg hc]
      have he2 : s.entry i l = false := by
        have heq : (if i = id ∧ l = lod then false else s.entry i l) = false := he
        rwa [if_neg hc] at heq
      exact I i l hh he2
  · intro i l hh hp he
    by_cases hc : i = id ∧ l = lod
    · exfalso
      obtain ⟨h1, h2⟩ := hc; subst h1; subst h2
      rcases hp with hp | hp
      · exact E i l hh h hp
      · have := D i l hp; omega
    · have he2 : s.entry i l = false := by
        have heq : (if i = id ∧ l = lod then false else s.entry i l) = false := he
        rwa [if_neg hc] at heq
      exact K i l hh hp he2

theorem inv_hdrFail (s : MeshSys) (id : Nat)
    (h : 0 < s.hdrFly id) (hInv : Inv s) :
    Inv { s with hdrFly := dec1 s.hdrFly id,
                 doneQ := fun i l => s.doneQ i l +
                   (if i = id ∧ l < LLVolumeLODGroup_NUM_LODS then 1 else 0) } := by
  obtain ⟨A, B, C, D, E, F, G, H, I, J, K⟩ := hInv
  have h1 : 0 < hdrTok s id := by unfold hdrTok; omega
  have hnone : s.header id = none := by
    cases hx : s.header id with
    | none => rfl
    | some b => exfalso; have := B id (by rw [hx]; simp); omega
  have hpend : s.pendLOD id ≠ none := C id h1
  have htok2 : ∀ i,
      hdrTok { s with hdrFly := dec1 s.hdrFly id,
                      doneQ := fun i l => s.doneQ i l +
                        (if i = id ∧ l < LLVolumeLODGroup_NUM_LODS then 1 else 0) } i
        = if i = id then hdrTok s i - 1 else hdrTok s i := by
    intro i
    show s.headerQ i + (if i = id then s.hdrFly i - 1 else s.hdrFly i)
        = if i = id then hdrTok s i - 1 else hdrTok s i
    unfold hdrTok
    by_cases hi : i = id
    · rw [if_pos hi, if_pos hi]; subst hi; omega
    · rw [if_neg hi, if_neg hi]
  refine ⟨?_, ?_, ?_, ?_, ?_, F, G, ?_, ?_, ?_, ?_⟩
  · intro i; rw [htok2 i]
    by_cases hi : i = id
    · rw [if_pos hi]; have := A i; omega
    · rw [if_neg hi]; exact A i
  · intro i hh; rw [htok2 i]
    by_cases hi : i = id
    · exact absurd (hi ▸ hnone) hh
    · rw [if_neg hi]; exact B i hh
  · intro i hp; rw [htok2 i] at hp
    by_cases hi : i = id
    · show s.pendLOD i ≠ none; rw [hi]; exact hpend
    · rw [if_neg hi] at hp; exact C i hp
  · intro i l hp; rw [htok2 i] at hp
    show s.doneQ i l + (if i = id ∧ l < LLVolumeLODGroup_NUM_LODS then 1 else 0) = 0
    by_cases hi : i = id
    · exfalso
      rw [if_pos hi] at hp
      have := A i
      omega
    · rw [if_neg hi] at hp
      rw [if_neg (fun hc => hi hc.1)]
      have := D i l hp; omega
  · intro i l hh hq
    show s.pendLOD i ≠ none
    by_cases hi : i = id
    · rw [hi]; exact hpend
    · have hq2 : 0 < s.doneQ i l +
          (if i = id ∧ l < LLVolumeLODGroup_NUM_LODS then 1 else 0) := hq
      rw [if_neg (fun hc => hi hc.1)] at hq2
      exact E i l hh (by omega)
  · intro i l hh
    have hi : i ≠ id := by
      intro he; rw [he, hnone] at hh; cases hh
    show s.pendReq i l + s.lodQ i l + s.lodFly i l
        + (s.doneQ i l + (if i = id ∧ l < LLVolumeLODGroup_NUM_LODS then 1 else 0)) ≤ 1
    rw [if_neg (fun hc => hi hc.1)]
    have h0 := H i l hh; unfold lodTok at h0; omega
  · intro i l hh he
    have hi : i ≠ id := by
      intro he2; rw [he2, hnone] at hh; cases hh
    show s.pendReq i l + s.lodQ i l + s.lodFly i l
        + (s.doneQ i l + (if i = id ∧ l < LLVolumeLODGroup_NUM_LODS then 1 else 0)) = 0
    rw [if_neg (fun hc => hi hc.1)]
    have h0 := I i l hh he; unfold lodTok at h0; omega
  · intro i l hh hp
    by_cases hi : i = id
    · exfalso
      rcases hp with hp | hp
      · exact (hi ▸ hpend) hp
      · rw [htok2 i, if_pos hi, hi] at hp
        have := A id; omega
    · refine J i l hh ?_
      rcases hp with hp | hp
      · exact Or.inl hp
      · rw [htok2 i, if_neg hi] at hp; exact Or.inr hp
  · intro i l hh hp he
    by_cases hi : i = id
    · exfalso
      rcases hp with hp | hp
      · exact (hi ▸ hpend) hp
      · rw [htok2 i, if_pos hi, hi] at hp
        have := A id; omega
    · refine K i l hh ?_ he
      rcases hp with hp | hp
      · exact Or.inl hp
      · rw [htok2 i, if_neg hi] at hp; exact Or.inr hp

/-- The LOD-handle-cancel re-queue preserves the invariant: a usable
header must be stored (otherwise no LOD handle could be in flight), so
the handle token moves back into the worker LOD queue and the per-key
total is unchanged. -/
theorem inv_lodFlyCancel (s : MeshSys) (id lod : Nat)
    (h : 0 < s.lodFly id lod) (hInv : Inv s) :
    Inv (MeshSys.loadMeshLOD { s with lodFly := dec2 s.lodFly id lod } id lod) := by
  obtain ⟨A, B, C, D, E, F, G, H, I, J, K⟩ := hInv
  have hh : s.header id = some true := by
    cases hx : s.header id with
    | none => exfalso; have h0 := (F id lod hx).2; omega
    | some b =>
      cases b with
      | false => exfalso; have h0 := G id lod hx; omega
      | true => rfl
  rw [loadMeshLOD_eq_some { s with lodFly := dec2 s.lodFly id lod } id lod true hh]
  refine ⟨A, B, C, D, E, ?_, ?_, ?_, ?_, J, K⟩
  · intro i l hh2
    have hi : ¬(i = id) := fun he => by rw [he, hh] at hh2; cases hh2
    show (if i = id ∧ l = lod then s.lodQ i l + 1 else s.lodQ i l) = 0
        ∧ (if i = id ∧ l = lod then s.lodFly i l - 1 else s.lodFly i l) = 0
    rw [if_neg (fun hc => hi hc.1), if_neg (fun hc => hi hc.1)]
    exact F i l hh2
  · intro i l hh2
    have hi : ¬(i = id) := fun he => by rw [he, hh] at hh2; cases hh2
    show (if i = id ∧ l = lod then s.lodFly i l - 1 else s.lodFly i l) = 0
    rw [if_neg (fun hc => hi hc.1)]
    exact G i l hh2
  · intro i l hh2
    have h0 := H i l hh2
    unfold lodTok at h0
    show s.pendReq i l
        + (if i = id ∧ l = lod then s.lodQ i l + 1 else s.lodQ i l)
        + (if i = id ∧ l = lod then s.lodFly i l - 1 else s.lodFly i l)
        + s.doneQ i l ≤ 1
    by_cases hc : i = id ∧ l = lod
    · obtain ⟨h1a, h2a⟩ := hc; subst h1a; subst h2a
      rw [if_pos ⟨rfl, rfl⟩, if_pos ⟨rfl, rfl⟩]
      omega
    · rw [if_neg hc, if_neg hc]; omega
  · intro i l hh2 he
    have h0 := I i l hh2 he
    unfold lodTok at h0
    show s.pendReq i l
        + (if i = id ∧ l = lod then s.lodQ i l + 1 else s.lodQ i l)
        + (if i = id ∧ l = lod then s.lodFly i l - 1 else s.lodFly i l)
        + s.doneQ i l = 0
    by_cases hc : i = id ∧ l = lod
    · obtain ⟨h1a, h2a⟩ := hc; subst h1a; subst h2a
      rw [if_pos ⟨rfl, rfl⟩, if_pos ⟨rfl, rfl⟩]
      omega
    · rw [if_neg hc, if_neg hc]; omega

/-- Header arrival preserves the invariant, given the bookkeeping facts
that hold at both arrival sites: no stored header yet, no header
tokens left after this one, no completions or worker LOD tokens for the
id, and the pre-header conservation bound on registry-plus-pending. -/
theorem inv_arrive (s : MeshSys) (id : Nat) (good : Bool)
    (sizePos fitOk : Nat → Bool) (broadcast skinPresent skinSat : Bool)
    (hb : broadcast = true → good = false)
    (hInv : Inv s)
    (f1 : s.header id = none)
    (f2 : hdrTok s id = 0)
    (f3 : ∀ l, s.doneQ id l = 0)
    (f4 : ∀ l, s.lodQ id l = 0 ∧ s.lodFly id l = 0)
    (f5 : ∀ l, s.pendReq id l + pTok s id l ≤ 1)
    (f6 : ∀ l, s.entry id l = false → s.pendReq id l + pTok s id l = 0) :
    Inv (MeshSys.arrive s id good sizePos fitOk broadcast skinPresent skinSat) := by
  obtain ⟨A, B, C, D, E, F, G, H, I, J, K⟩ := hInv
  have hpush := fun l => arrivePush_le s id good sizePos fitOk l
  refine ⟨A, ?_, ?_, ?_, ?_, ?_, ?_, ?_, ?_, ?_, ?_⟩
  · intro i hne
    by_cases hi : i = id
    · subst hi
      exact f2
    · have hne2 : (if i = id then some good else s.header i) ≠ none := hne
      rw [if_neg hi] at hne2
      exact B i hne2
  · intro i hp
    by_cases hi : i = id
    · subst hi
      exfalso
      have hp2 : 0 < hdrTok s i := hp
      omega
    · have hp2 : 0 < hdrTok s i := hp
      show (if i = id then none else s.pendLOD i) ≠ none
      rw [if_neg hi]
      exact C i hp2
  · intro i l hp
    have hp2 : 0 < hdrTok s i := hp
    by_cases hi : i = id
    · subst hi; exfalso; omega
    · show s.doneQ i l
          + (if i = id then arrivePushD ((s.pendLOD id).getD (fun _ => 0)) good sizePos fitOk l else 0)
          + (if i = id ∧ l < LLVolumeLODGroup_NUM_LODS ∧ broadcast = true then 1 else 0) = 0
      rw [if_neg hi, if_neg (fun hc => hi hc.1)]
      have hd := D i l hp2
      omega
  · intro i l hne hq
    by_cases hi : i = id
    · exfalso
      have hne2 : (if i = id then some good else s.header i) = none := hne
      rw [if_pos hi] at hne2; cases hne2
    · have hne2 : (if i = id then some good else s.header i) = none := hne
      rw [if_neg hi] at hne2
      have hq2 : 0 < s.doneQ i l
          + (if i = id then arrivePushD ((s.pendLOD id).getD (fun _ => 0)) good sizePos fitOk l else 0)
          + (if i = id ∧ l < LLVolumeLODGroup_NUM_LODS ∧ broadcast = true then 1 else 0) := hq
      rw [if_neg hi, if_neg (fun hc => hi hc.1)] at hq2
      have he := E i l hne2 (by omega)
      show (if i = id then none else s.pendLOD i) ≠ none
      rw [if_neg hi]
      exact he
  · intro i l hne
    by_cases hi : i = id
    · exfalso
      have hne2 : (if i = id then some good else s.header i) = none := hne
      rw [if_pos hi] at hne2; cases hne2
    · have hne2 : (if i = id then some good else s.header i) = none := hne
      rw [if_neg hi] at hne2
      have hf := F i l hne2
      constructor
      · show s.lodQ i l
            + (if i = id then arrivePushL ((s.pendLOD id).getD (fun _ => 0)) good sizePos fitOk l else 0)
            = 0
        rw [if_neg hi]; omega
      · exact hf.2
  · intro i l hne
    by_cases hi : i = id
    · subst hi
      exact (f4 l).2
    · have hne2 : (if i = id then some good else s.header i) = some false := hne
      rw [if_neg hi] at hne2
      exact G i l hne2
  · intro i l hgood
    by_cases hi : i = id
    · subst hi
      have hgood2 : (if i = i then some good else s.header i) = some true := hgood
      rw [if_pos rfl] at hgood2
      have hg : good = true := Option.some.inj hgood2
      have hbc : broadcast = false := by
        cases broadcast with
        | false => rfl
        | true => rw [hb rfl] at hg; cases hg
      subst hbc
      obtain ⟨h4a, h4b⟩ := f4 l
      have h3 := f3 l
      have h5 := f5 l
      have hp1 := hpush l
      show s.pendReq i l
          + (s.lodQ i l
             + (if i = i then arrivePushL ((s.pendLOD i).getD (fun _ => 0)) good sizePos fitOk l else 0))
          + s.lodFly i l
          + (s.doneQ i l
             + (if i = i then arrivePushD ((s.pendLOD i).getD (fun _ => 0)) good sizePos fitOk l else 0)
             + (if i = i ∧ l < LLVolumeLODGroup_NUM_LODS ∧ false = true then 1 else 0)) ≤ 1
      rw [if_pos rfl, if_pos rfl, if_neg (fun hc2 => Bool.false_ne_true hc2.2.2)]
      omega
    · have hgood2 : (if i = id then some good else s.header i) = some true := hgood
      rw [if_neg hi] at hgood2
      have h0 := H i l hgood2
      unfold lodTok at h0
      show s.pendReq i l
          + (s.lodQ i l
             + (if i = id then arrivePushL ((s.pendLOD id).getD (fun _ => 0)) good sizePos fitOk l else 0))
          + s.lodFly i l
          + (s.doneQ i l
             + (if i = id then arrivePushD ((s.pendLOD id).getD (fun _ => 0)) good sizePos fitOk l else 0)
             + (if i = id ∧ l < LLVolumeLODGroup_NUM_LODS ∧ broadcast = true then 1 else 0)) ≤ 1
      rw [if_neg hi, if_neg hi, if_neg (fun hc => hi hc.1)]
      omega
  · intro i l hgood hent
    by_cases hi : i = id
    · subst hi
      have hgood2 : (if i = i then some good else s.header i) = some true := hgood
      rw [if_pos rfl] at hgood2
      have hg : good = true := Option.some.inj hgood2
      have hbc : broadcast = false := by
        cases broadcast with
        | false => rfl
        | true => rw [hb rfl] at hg; cases hg
      subst hbc
      obtain ⟨h4a, h4b⟩ := f4 l
      have h3 := f3 l
      have hent2 : s.entry i l = false := hent
      have h6 := f6 l hent2
      have hp1 := hpush l
      show s.pendReq i l
          + (s.lodQ i l
             + (if i = i then arrivePushL ((s.pendLOD i).getD (fun _ => 0)) good sizePos fitOk l else 0))
          + s.lodFly i l
          + (s.doneQ i l
             + (if i = i then arrivePushD ((s.pendLOD i).getD (fun _ => 0)) good sizePos fitOk l else 0)
             + (if i = i ∧ l < LLVolumeLODGroup_NUM_LODS ∧ false = true then 1 else 0)) = 0
      rw [if_pos rfl, if_pos rfl, if_neg (fun hc2 => Bool.false_ne_true hc2.2.2)]
      omega
    · have hgood2 : (if i = id then some good else s.header i) = some true := hgood
      rw [if_neg hi] at hgood2
      have hent2 : s.entry i l = false := hent
      have h0 := I i l hgood2 hent2
      unfold lodTok at h0
      show s.pendReq i l
          + (s.lodQ i l
             + (if i = id then arrivePushL ((s.pendLOD id).getD (fun _ => 0)) good sizePos fitOk l else 0))
          + s.lodFly i l
          + (s.doneQ i l
             + (if i = id then arrivePushD ((s.pendLOD id).getD (fun _ => 0)) good sizePos fitOk l else 0)
             + (if i = id ∧ l < LLVolumeLODGroup_NUM_LODS ∧ broadcast = true then 1 else 0)) = 0
      rw [if_neg hi, if_neg hi, if_neg (fun hc => hi hc.1)]
      omega
  · intro i l hne hp
    by_cases hi : i = id
    · exfalso
      have hne2 : (if i = id then some good else s.header i) = none := hne
      rw [if_pos hi] at hne2; cases hne2
    · have hne2 : (if i = id then some good else s.header i) = none := hne
      rw [if_neg hi] at hne2
      have hpe : (MeshSys.arrive s id good sizePos fitOk broadcast skinPresent skinSat).pendLOD i
          = s.pendLOD i := by
        show (if i = id then none else s.pendLOD i) = s.pendLOD i
        rw [if_neg hi]
      have hp2 : s.pendLOD i = none ∨ 0 < hdrTok s i := by
        rcases hp with hp | hp
        · left
          have hx : (if i = id then (none : Option (Nat → Nat)) else s.pendLOD i) = none := hp
          rwa [if_neg hi] at hx
        · right; exact hp
      have hj := J i l hne2 hp2
      have hpt := pTok_ext s
        (MeshSys.arrive s id good sizePos fitOk broadcast skinPresent skinSat) i l hpe
      show s.pendReq i l
          + pTok (MeshSys.arrive s id good sizePos fitOk broadcast skinPresent skinSat) i l ≤ 1
      rw [hpt]
      exact hj
  · intro i l hne hp hent
    by_cases hi : i = id
    · exfalso
      have hne2 : (if i = id then some good else s.header i) = none := hne
      rw [if_pos hi] at hne2; cases hne2
    · have hne2 : (if i = id then some good else s.header i) = none := hne
      rw [if_neg hi] at hne2
      have hpe : (MeshSys.arrive s id good sizePos fitOk broadcast skinPresent skinSat).pendLOD i
          = s.pendLOD i := by
        show (if i = id then none else s.pendLOD i) = s.pendLOD i
        rw [if_neg hi]
      have hp2 : s.pendLOD i = none ∨ 0 < hdrTok s i := by
        rcases hp with hp | hp
        · left
          have hx : (if i = id then (none : Option (Nat → Nat)) else s.pendLOD i) = none := hp
          rwa [if_neg hi] at hx
        · right; exact hp
      have hent2 : s.entry i l = false := hent
      have hk := K i l hne2 hp2 hent2
      have hpt := pTok_ext s
        (MeshSys.arrive s id good sizePos fitOk broadcast skinPresent skinSat) i l hpe
      show s.pendReq i l
          + pTok (MeshSys.arrive s id good sizePos fitOk broadcast skinPresent skinSat) i l = 0
      rw [hpt]
      exact hk

/-- Cache-hit header arrival (worker pops the header request and
satisfies it in place) preserves the invariant. -/
theorem inv_drainHeaderArrive (s : MeshSys) (id : Nat) (good : Bool)
    (sizePos fitOk : Nat → Bool) (skinPresent skinSat : Bool)
    (h : 0 < s.headerQ id) (hInv : Inv s) :
    Inv (MeshSys.arrive { s with headerQ := dec1 s.headerQ id } id good
      sizePos fitOk false skinPresent skinSat) := by
  have hInv1 := inv_drainHeaderDrop s id hInv
  have htok : 0 < hdrTok s id := by unfold hdrTok; omega
  have f1 : s.header id = none := by
    cases hx : s.header id with
    | none => rfl
    | some b =>
      exfalso
      have h0 := hInv.hdrDone id (by rw [hx]; simp)
      unfold hdrTok at h0
      omega
  have hA := hInv.hdrAtMostOne id
  refine inv_arrive _ id good sizePos fitOk false skinPresent skinSat
    (fun hx => by cases hx) hInv1 f1 ?_ ?_ ?_ ?_ ?_
  · show dec1 s.headerQ id id + s.hdrFly id = 0
    unfold dec1
    rw [if_pos rfl]
    unfold hdrTok at hA
    omega
  · intro l
    exact hInv.hdrTokNoDone id l htok
  · intro l
    exact hInv.noneNoLod id l f1
  · intro l
    exact hInv.preTok id l f1 (Or.inr htok)
  · intro l hent
    exact hInv.preEntry id l f1 (Or.inr htok) hent

/-- Completion of the in-flight header handle (`headerReceived` stores
a header and pushes the follow-on work) preserves the invariant. -/
theorem inv_hdrArrive (s : MeshSys) (id : Nat) (good : Bool)
    (sizePos fitOk : Nat → Bool) (broadcast skinPresent skinSat : Bool)
    (h : 0 < s.hdrFly id) (hb : broadcast = true → good = false) (hInv : Inv s) :
    Inv (MeshSys.arrive { s with hdrFly := dec1 s.hdrFly id } id good
      sizePos fitOk broadcast skinPresent skinSat) := by
  have hInv1 := inv_hdrFlyDec s id hInv
  have htok : 0 < hdrTok s id := by unfold hdrTok; omega
  have f1 : s.header id = none := by
    cases hx : s.header id with
    | none => rfl
    | some b =>
      exfalso
      have h0 := hInv.hdrDone id (by rw [hx]; simp)
      unfold hdrTok at h0
      omega
  have hA := hInv.hdrAtMostOne id
  refine inv_arrive _ id good sizePos fitOk broadcast skinPresent skinSat
    hb hInv1 f1 ?_ ?_ ?_ ?_ ?_
  · show s.headerQ id + dec1 s.hdrFly id id = 0
    unfold dec1
    rw [if_pos rfl]
    unfold hdrTok at hA
    omega
  · intro l
    exact hInv.hdrTokNoDone id l htok
  · intro l
    exact hInv.noneNoLod id l f1
  · intro l
    exact hInv.preTok id l f1 (Or.inr htok)
  · intro l hent
    exact hInv.preEntry id l f1 (Or.inr htok) hent

/-- Every scheduler step preserves the invariant. -/
theorem inv_step {s s2 : MeshSys} (hInv : Inv s) (hs : Step s s2) : Inv s2 := by
  cases hs with
  | loadMeshNew id lod h4 hent => exact inv_loadMeshNew s id lod hent hInv
  | loadMeshCoalesce id lod h4 hent => exact hInv
  | dispatchLod id lod h => exact inv_dispatchLod s id lod h hInv
  | getSkinNew id hent => exact inv_skinOnly s _ _ _ _ _ hInv
  | getSkinCoalesce id hent => exact hInv
  | dispatchSkin id h => exact inv_skinOnly s _ _ _ _ _ hInv
  | drainHeaderIssue id h => exact inv_drainHeaderIssue s id h hInv
  | drainHeaderArrive id good sizePos fitOk skinPresent skinSat h =>
    exact inv_drainHeaderArrive s id good sizePos fitOk skinPresent skinSat h hInv
  | drainHeaderDrop id h => exact inv_drainHeaderDrop s id hInv
  | hdrArrive id good sizePos fitOk broadcast skinPresent skinSat h hb =>
    exact inv_hdrArrive s id good sizePos fitOk broadcast skinPresent skinSat h hb hInv
  | hdrFail id h => exact inv_hdrFail s id h hInv
  | hdrCancel id h => exact inv_hdrCancel s id h hInv
  | drainLodIssue id lod h hg => exact inv_drainLodIssue s id lod h hg hInv
  | drainLodDone id lod h => exact inv_drainLodDone s id lod h hInv
  | drainLodSilent id lod h => exact inv_drainLodSilent s id lod hInv
  | lodFlyDone id lod h => exact inv_lodFlyDone s id lod h hInv
  | lodFlyCancel id lod h => exact inv_lodFlyCancel s id lod h hInv
  | lodFlySilent id lod h => exact inv_lodFlySilent s id lod hInv
  | deliver id lod h => exact inv_deliver s id lod h hInv
  | drainSkinIssue id h hg => exact inv_skinOnly s _ _ _ _ _ hInv
  | drainSkinDone id h => exact inv_skinOnly s _ _ _ _ _ hInv
  | drainSkinSilent id h => exact inv_skinOnly s _ _ _ _ _ hInv
  | skinFlyDone id h => exact inv_skinOnly s _ _ _ _ _ hInv
  | skinFlySilent id h => exact inv_skinOnly s _ _ _ _ _ hInv
  | deliverSkin id h => exact inv_skinOnly s _ _ _ _ _ hInv

/-- The invariant holds in every reachable state. -/
theorem inv_reachable {s : MeshSys} (h : Reachable s) : Inv s := by
  induction h with
  | init => exact inv_init
  | step hr hs ih => exact inv_step ih hs

/-! ## Claim theorems -/

/-- One failed fetch attempt below the retry limit re-queues the request
with the incremented counter and the doubled delay. -/
theorem onFetchFailure_lt (r : RequestStats) (h : r.mRetries < 8) :
    r.onFetchFailure = some {
      mRetries := r.mRetries + 1,
      delaySec := some (DOWNLOAD_RETRY_DELAY * ((2 ^ r.mRetries : Nat) : ℚ)) } := by
  unfold RequestStats.onFetchFailure RequestStats.updateTime RequestStats.canRetry
    DOWNLOAD_RETRY_LIMIT
  rw [if_pos (decide_eq_true h)]

/-- One failed fetch attempt at the retry limit abandons the request. -/
theorem onFetchFailure_ge (r : RequestStats) (h : ¬ r.mRetries < 8) :
    r.onFetchFailure = none := by
  unfold RequestStats.onFetchFailure RequestStats.canRetry DOWNLOAD_RETRY_LIMIT
  rw [if_neg (fun hc => h (of_decide_eq_true hc))]

/-- Closed form of the retry state after `k` failed fetch attempts. -/
theorem afterFailures_eq (k : Nat) :
    afterFailures k =
      if k ≤ 8 then
        some {
          mRetries := k,
          delaySec := if k = 0 then none
            else some (DOWNLOAD_RETRY_DELAY * ((2 ^ (k - 1) : Nat) : ℚ)) }
      else none := by
  induction k with
  | zero => rfl
  | succ n ih =>
    show (afterFailures n).bind RequestStats.onFetchFailure = _
    rw [ih]
    by_cases hn : n ≤ 8
    · rw [if_pos hn]
      show RequestStats.onFetchFailure
          {
            mRetries := n,
            delaySec := if n = 0 then none
              else some (DOWNLOAD_RETRY_DELAY * ((2 ^ (n - 1) : Nat) : ℚ)) } = _
      by_cases hlt : n < 8
      · rw [onFetchFailure_lt
            {
              mRetries := n,
              delaySec := if n = 0 then none
                else some (DOWNLOAD_RETRY_DELAY * ((2 ^ (n - 1) : Nat) : ℚ)) } hlt,
          if_pos (show n + 1 ≤ 8 by omega)]
        rfl
      · rw [onFetchFailure_ge
            {
              mRetries := n,
              delaySec := if n = 0 then none
                else some (DOWNLOAD_RETRY_DELAY * ((2 ^ (n - 1) : Nat) : ℚ)) } hlt,
          if_neg (show ¬ n + 1 ≤ 8 by omega)]
    · rw [if_neg hn, if_neg (show ¬ n + 1 ≤ 8 by omega)]
      rfl

/-- C3: for every download request, the retry count never exceeds the
download retry limit of 8, a request that has recorded 8 retries is not
retried again, and after the k-th failed attempt the recorded delay is
exactly 0.5 * 2 ^ (k - 1) seconds. -/
theorem C3_retry_budget (k : Nat) (r : RequestStats)
    (h : afterFailures k = some r) :
    r.mRetries = k ∧ k ≤ DOWNLOAD_RETRY_LIMIT
    ∧ RequestStats.onFetchFailure { r with mRetries := DOWNLOAD_RETRY_LIMIT } = none
    ∧ (1 ≤ k → r.delaySec = some (DOWNLOAD_RETRY_DELAY * (2 : ℚ) ^ (k - 1))) := by
  rw [afterFailures_eq] at h
  by_cases hk : k ≤ 8
  · rw [if_pos hk] at h
    obtain rfl := Option.some.inj h
    refine ⟨rfl, hk, rfl, ?_⟩
    intro hk1
    show (if k = 0 then none
        else some (DOWNLOAD_RETRY_DELAY * ((2 ^ (k - 1) : Nat) : ℚ)))
      = some (DOWNLOAD_RETRY_DELAY * (2 : ℚ) ^ (k - 1))
    rw [if_neg (by omega)]
    have hc : ((2 ^ (k - 1) : Nat) : ℚ) = (2 : ℚ) ^ (k - 1) := by
      push_cast
      ring
    rw [hc]
  · rw [if_neg hk] at h
    cases h

theorem C3_retry_budget_witness :
    afterFailures 3
        = some ⟨3, some (DOWNLOAD_RETRY_DELAY * ((2 ^ 2 : Nat) : ℚ))⟩
    ∧ ((⟨3, some (DOWNLOAD_RETRY_DELAY * ((2 ^ 2 : Nat) : ℚ))⟩ : RequestStats).mRetries = 3
       ∧ 3 ≤ DOWNLOAD_RETRY_LIMIT
       ∧ RequestStats.onFetchFailure
           { (⟨3, some (DOWNLOAD_RETRY_DELAY * ((2 ^ 2 : Nat) : ℚ))⟩ : RequestStats) with
               mRetries := DOWNLOAD_RETRY_LIMIT } = none
       ∧ (1 ≤ 3 →
           (⟨3, some (DOWNLOAD_RETRY_DELAY * ((2 ^ 2 : Nat) : ℚ))⟩ : RequestStats).delaySec
             = some (DOWNLOAD_RETRY_DELAY * (2 : ℚ) ^ (3 - 1)))) :=
  ⟨rfl,
   C3_retry_budget 3 ⟨3, some (DOWNLOAD_RETRY_DELAY * ((2 ^ 2 : Nat) : ℚ))⟩ rfl⟩

/-- C7: a successful completion with status 206 but no usable range
header (offset and length both read back as zero) is treated as a body
starting exactly at the requested offset: the delivered slice begins at
body offset 0 with the full body length, and the response is not failed
for a range mismatch. -/
theorem C7_partial_no_range (mOffset dataSize : Int) (h1 : 0 < dataSize) :
    onCompletedSuccess mOffset true 0 0 dataSize true
      = CompletionOutcome.delivered 0 dataSize := by
  unfold onCompletedSuccess
  rw [if_pos h1]
  have hoff : (if (true : Bool) = true then
      (if (0 : Int) = 0 ∧ (0 : Int) = 0 then mOffset else 0) else 0) = mOffset := by
    norm_num
  rw [hoff]
  show (if mOffset < mOffset ∨ mOffset + dataSize ≤ mOffset
          ∨ dataSize ≤ mOffset - mOffset then CompletionOutcome.rangeFail
        else if (true : Bool) = true then
          CompletionOutcome.delivered (mOffset - mOffset) (dataSize - (mOffset - mOffset))
        else CompletionOutcome.allocFail)
      = CompletionOutcome.delivered 0 dataSize
  rw [if_neg (by omega), if_pos rfl,
    (show mOffset - mOffset = (0 : Int) by omega),
    (show dataSize - (0 : Int) = dataSize by omega)]

theorem C7_partial_no_range_witness :
    (0 : Int) < 1000
    ∧ onCompletedSuccess 4096 true 0 0 1000 true
        = CompletionOutcome.delivered 0 1000 :=
  ⟨by decide, C7_partial_no_range 4096 1000 (by decide)⟩

/-- A stored header whose physics-mesh size is 0 (all other fields
arbitrary small values). -/
def hdrNullPhysics : LLMeshHeader where
  mVersion := 1
  mSkinOffset := 0
  mSkinSize := 0
  mPhysicsConvexOffset := 0
  mPhysicsConvexSize := 0
  mPhysicsMeshOffset := 0
  mPhysicsMeshSize := 0
  mLodOffset := fun _ => 0
  mLodSize := fun _ => 0
  mSkinInCache := false
  mPhysicsConvexInCache := false
  mPhysicsMeshInCache := false
  mLodInCache := fun _ => false
  m404 := false
  mHeaderSize := 100

/-- A fetch context holding that header. -/
def envNullPhysics : FetchEnv where
  headerLookup := some hdrNullPhysics
  fileSize := 0
  fileByte := fun _ => 0
  allocOk := true
  postOk := true
  parseOk := true
  httpUrlOk := true
  httpHandleOk := true
  fileMaxSizeOk := true

/-- C8: a physics-shape fetch on a mesh whose stored header declares a
physics-mesh size of 0 delivers the null physics result immediately and
issues no HTTP request. -/
theorem C8_null_physics (env : FetchEnv) (header : LLMeshHeader)
    (hl : env.headerLookup = some header) (hs : 0 < header.mHeaderSize)
    (hz : header.mPhysicsMeshSize = 0) :
    (fetchMeshPhysicsShape env).deliveredNullPhysics = true
    ∧ (fetchMeshPhysicsShape env).issuedHttp = false := by
  have he : fetchMeshPhysicsShape env
      = { FetchResult.noEffects with retval := true, deliveredNullPhysics := true } := by
    simp only [fetchMeshPhysicsShape, hl]
    rw [if_pos hs,
      if_neg (fun hc => absurd (hz ▸ hc.2.2) (lt_irrefl 0))]
  rw [he]
  exact ⟨rfl, rfl⟩

theorem C8_null_physics_witness :
    envNullPhysics.headerLookup = some hdrNullPhysics
    ∧ ((fetchMeshPhysicsShape envNullPhysics).deliveredNullPhysics = true
      ∧ (fetchMeshPhysicsShape envNullPhysics).issuedHttp = false) :=
  ⟨rfl, C8_null_physics envNullPhysics hdrNullPhysics rfl (by decide) rfl⟩

/-- C9: divergence between the code and the claimed eviction contract.
On the cull pass over a skin map holding the single entry (id 7,
refcount 2) - an entry with an external holder - the main-thread map
keeps the entry, yet its id is still posted to the worker queue
(llmeshrepository.cpp posts outside the refcount conditional), so the
worker private copy erases it.  The claim says such an entry remains in
both maps. -/
theorem C9_skin_cull_posts_all :
    (skinCullPass [⟨7, 2⟩]).1 = [⟨7, 2⟩]
    ∧ (skinCullPass [⟨7, 2⟩]).2 = [7]
    ∧ runPostedErases [7] (skinCullPass [⟨7, 2⟩]).2 = [] := by
  refine ⟨by decide, by decide, by decide⟩

/-- C10: a loadMesh call with a requested LOD outside [0, 3] returns the
requested LOD unchanged and leaves the registry state untouched. -/
theorem C10_out_of_range_noop (s : RepoMainState) (vobj meshId : Nat)
    (newLod bestLookup : Int)
    (h : newLod < 0 ∨ (LLVolumeLODGroup_NUM_LODS : Int) ≤ newLod) :
    loadMesh s vobj meshId newLod bestLookup = (s, newLod) := by
  unfold loadMesh
  rw [if_pos h]

theorem C10_out_of_range_noop_witness :
    ((5 : Int) < 0 ∨ (LLVolumeLODGroup_NUM_LODS : Int) ≤ 5)
    ∧ loadMesh
        { mLoadingMeshes := fun _ _ => none, mPendingRequests := [], sLODPending := 0 }
        0 0 5 0
      = ({ mLoadingMeshes := fun _ _ => none, mPendingRequests := [], sLODPending := 0 }, 5) :=
  ⟨Or.inr (by decide),
   C10_out_of_range_noop
     { mLoadingMeshes := fun _ _ => none, mPendingRequests := [], sLODPending := 0 }
     0 0 5 0 (Or.inr (by decide))⟩

/-- With no header entry `fetchMeshSkinInfo` does nothing and returns
false. -/
theorem fetchMeshSkinInfo_noHeader (env : FetchEnv) (hn : env.headerLookup = none) :
    fetchMeshSkinInfo env = { FetchResult.noEffects with retval := false } := by
  unfold fetchMeshSkinInfo
  rw [hn]

/-- With no header entry `fetchMeshLOD` does nothing and returns false. -/
theorem fetchMeshLOD_noHeader (env : FetchEnv) (lod : Nat)
    (hn : env.headerLookup = none) :
    fetchMeshLOD env lod = { FetchResult.noEffects with retval := false } := by
  unfold fetchMeshLOD
  rw [hn]

/-- With no header entry `fetchMeshDecomposition` does nothing and
returns false. -/
theorem fetchMeshDecomposition_noHeader (env : FetchEnv)
    (hn : env.headerLookup = none) :
    fetchMeshDecomposition env = { FetchResult.noEffects with retval := false } := by
  unfold fetchMeshDecomposition
  rw [hn]

/-- With no header entry `fetchMeshPhysicsShape` does nothing and
returns false. -/
theorem fetchMeshPhysicsShape_noHeader (env : FetchEnv)
    (hn : env.headerLookup = none) :
    fetchMeshPhysicsShape env = { FetchResult.noEffects with retval := false } := by
  unfold fetchMeshPhysicsShape
  rw [hn]

/-- With no stored header `loadMeshLOD` queues no worker LOD work: the
request lands in the pending-LOD table (whose entry then exists). -/
theorem loadMeshLOD_noHeader (s : MeshSys) (id lod : Nat)
    (hh : s.header id = none) :
    (MeshSys.loadMeshLOD s id lod).lodQ = s.lodQ
    ∧ (MeshSys.loadMeshLOD s id lod).pendLOD id ≠ none := by
  cases hp : s.pendLOD id with
  | none =>
    rw [loadMeshLOD_eq_fresh s id lod hh hp]
    refine ⟨rfl, ?_⟩
    show (if id = id then some (fun l => if l = lod then 1 else 0) else s.pendLOD id) ≠ none
    rw [if_pos rfl]
    exact Option.some_ne_none _
  | some a =>
    by_cases hl : lod < LLModel_NUM_LODS
    · rw [loadMeshLOD_eq_bumpPend s id lod a hh hp hl]
      refine ⟨rfl, ?_⟩
      show (if id = id then some (bump1 a lod) else s.pendLOD id) ≠ none
      rw [if_pos rfl]
      exact Option.some_ne_none _
    · rw [loadMeshLOD_eq_outOfRange s id lod a hh hp hl]
      refine ⟨rfl, ?_⟩
      rw [hp]
      exact Option.some_ne_none _

/-- C4: no LOD, skin, decomposition or physics-shape HTTP request is
issued for an identifier without a stored parsed header: every
sub-section fetch function refuses when the header map has no entry;
a LOD request arriving before the header queues no worker LOD work and
is recorded in the pending-LOD table; and in every reachable state an
id with no stored header has no LOD handle in flight and at most one
header fetch alive. -/
theorem C4_header_before_body (env : FetchEnv) (lod : Nat)
    (hn : env.headerLookup = none)
    (s : MeshSys) (hr : Reachable s) (id lod2 : Nat) (hh : s.header id = none) :
    (fetchMeshSkinInfo env).issuedHttp = false
    ∧ (fetchMeshLOD env lod).issuedHttp = false
    ∧ (fetchMeshDecomposition env).issuedHttp = false
    ∧ (fetchMeshPhysicsShape env).issuedHttp = false
    ∧ (MeshSys.loadMeshLOD s id lod2).lodQ = s.lodQ
    ∧ (MeshSys.loadMeshLOD s id lod2).pendLOD id ≠ none
    ∧ s.lodFly id lod2 = 0
    ∧ hdrTok s id ≤ 1 := by
  have hInv := inv_reachable hr
  obtain ⟨h1, h2⟩ := loadMeshLOD_noHeader s id lod2 hh
  refine ⟨?_, ?_, ?_, ?_, h1, h2, (hInv.noneNoLod id lod2 hh).2, hInv.hdrAtMostOne id⟩
  · rw [fetchMeshSkinInfo_noHeader env hn]; rfl
  · rw [fetchMeshLOD_noHeader env lod hn]; rfl
  · rw [fetchMeshDecomposition_noHeader env hn]; rfl
  · rw [fetchMeshPhysicsShape_noHeader env hn]; rfl


/-- A fetch context with no header entry for the mesh id. -/
def envNoHeader : FetchEnv where
  headerLookup := none
  fileSize := 0
  fileByte := fun _ => 0
  allocOk := true
  postOk := true
  parseOk := true
  httpUrlOk := true
  httpHandleOk := true
  fileMaxSizeOk := true

theorem C4_header_before_body_witness :
    envNoHeader.headerLookup = none
    ∧ Reachable MeshSys.init
    ∧ MeshSys.init.header 0 = none
    ∧ ((fetchMeshSkinInfo envNoHeader).issuedHttp = false
      ∧ (fetchMeshLOD envNoHeader 2).issuedHttp = false
      ∧ (fetchMeshDecomposition envNoHeader).issuedHttp = false
      ∧ (fetchMeshPhysicsShape envNoHeader).issuedHttp = false
      ∧ (MeshSys.loadMeshLOD MeshSys.init 0 2).lodQ = MeshSys.init.lodQ
      ∧ (MeshSys.loadMeshLOD MeshSys.init 0 2).pendLOD 0 ≠ none
      ∧ MeshSys.init.lodFly 0 2 = 0
      ∧ hdrTok MeshSys.init 0 ≤ 1) :=
  ⟨rfl, Reachable.init, rfl,
   C4_header_before_body envNoHeader 2 rfl MeshSys.init Reachable.init 0 2 rfl⟩

/-- A stored header declaring a cached 96-byte skin and a cached
40-byte LOD 1. -/
def hdrZeroCached : LLMeshHeader where
  mVersion := 1
  mSkinOffset := 0
  mSkinSize := 96
  mPhysicsConvexOffset := 0
  mPhysicsConvexSize := 0
  mPhysicsMeshOffset := 0
  mPhysicsMeshSize := 0
  mLodOffset := fun _ => 100
  mLodSize := fun i => if i = 1 then 40 else 0
  mSkinInCache := true
  mPhysicsConvexInCache := false
  mPhysicsMeshInCache := false
  mLodInCache := fun i => i == 1
  m404 := false
  mHeaderSize := 100

/-- A fetch context for that header whose cache file is large enough
and holds only zero bytes. -/
def envZeroCached : FetchEnv where
  headerLookup := some hdrZeroCached
  fileSize := 300
  fileByte := fun _ => 0
  allocOk := true
  postOk := true
  parseOk := true
  httpUrlOk := true
  httpHandleOk := true
  fileMaxSizeOk := true

/-- C1 (amended): a cached sub-section read (LOD or skin) whose first
kilobyte of cached bytes is all zero does not trust the cache and
issues the HTTP byte-range request for the sub-section, but it clears
no header presence bits, rewrites no cache preamble and re-enqueues
nothing (those happen only when nonzero cached bytes fail to parse). -/
theorem C1_zero_kb_fallback (env : FetchEnv) (header : LLMeshHeader)
    (hl : env.headerLookup = some header) (hs : 0 < header.mHeaderSize)
    (ha : env.allocOk = true)
    (hu : env.httpUrlOk = true) (hh : env.httpHandleOk = true)
    (hsg : header.mVersion ≤ MAX_MESH_VERSION
      ∧ 0 ≤ header.mHeaderSize + header.mSkinOffset ∧ 0 < header.mSkinSize)
    (hsc : header.mSkinInCache = true
      ∧ header.mHeaderSize + header.mSkinOffset + CACHE_PREAMBLE_SIZE
          + header.mSkinSize ≤ env.fileSize)
    (hsz : firstKZero env.fileByte
        (header.mHeaderSize + header.mSkinOffset + CACHE_PREAMBLE_SIZE)
        header.mSkinSize = true)
    (lod : Nat)
    (hlg : header.mVersion ≤ MAX_MESH_VERSION
      ∧ 0 ≤ header.mHeaderSize + header.mLodOffset lod ∧ 0 < header.mLodSize lod)
    (hlc : header.mLodInCache lod = true
      ∧ header.mHeaderSize + header.mLodOffset lod + CACHE_PREAMBLE_SIZE
          + header.mLodSize lod ≤ env.fileSize)
    (hlz : firstKZero env.fileByte
        (header.mHeaderSize + header.mLodOffset lod + CACHE_PREAMBLE_SIZE)
        (header.mLodSize lod) = true) :
    fetchMeshSkinInfo env
      = { FetchResult.noEffects with
            retval := true, issuedHttp := true,
            requestedOffset := header.mHeaderSize + header.mSkinOffset,
            requestedSize := header.mSkinSize }
    ∧ fetchMeshLOD env lod
      = { FetchResult.noEffects with
            retval := true, issuedHttp := true,
            requestedOffset := header.mHeaderSize + header.mLodOffset lod,
            requestedSize := header.mLodSize lod } := by
  constructor
  · simp only [fetchMeshSkinInfo, hl]
    rw [if_pos hs, if_pos hsg, if_pos hsc,
      if_neg (fun hc => hc ha),
      if_neg (fun hc => by rw [hsz] at hc; cases hc)]
    simp only [httpFallback, hu, hh]
    simp only [if_true]
  · simp only [fetchMeshLOD, hl]
    rw [if_pos hs, if_pos hlg, if_pos hlc,
      if_neg (fun hc => hc ha),
      if_neg (fun hc => by rw [hlz] at hc; cases hc)]
    simp only [httpFallback, hu, hh]
    simp only [if_true]

theorem C1_zero_kb_fallback_witness :
    envZeroCached.headerLookup = some hdrZeroCached
    ∧ (0 : Int) < hdrZeroCached.mHeaderSize
    ∧ envZeroCached.allocOk = true
    ∧ envZeroCached.httpUrlOk = true
    ∧ envZeroCached.httpHandleOk = true
    ∧ (hdrZeroCached.mVersion ≤ MAX_MESH_VERSION
       ∧ 0 ≤ hdrZeroCached.mHeaderSize + hdrZeroCached.mSkinOffset
       ∧ 0 < hdrZeroCached.mSkinSize)
    ∧ (hdrZeroCached.mSkinInCache = true
       ∧ hdrZeroCached.mHeaderSize + hdrZeroCached.mSkinOffset + CACHE_PREAMBLE_SIZE
           + hdrZeroCached.mSkinSize ≤ envZeroCached.fileSize)
    ∧ firstKZero envZeroCached.fileByte
        (hdrZeroCached.mHeaderSize + hdrZeroCached.mSkinOffset + CACHE_PREAMBLE_SIZE)
        hdrZeroCached.mSkinSize = true
    ∧ (hdrZeroCached.mVersion ≤ MAX_MESH_VERSION
       ∧ 0 ≤ hdrZeroCached.mHeaderSize + hdrZeroCached.mLodOffset 1
       ∧ 0 < hdrZeroCached.mLodSize 1)
    ∧ (hdrZeroCached.mLodInCache 1 = true
       ∧ hdrZeroCached.mHeaderSize + hdrZeroCached.mLodOffset 1 + CACHE_PREAMBLE_SIZE
           + hdrZeroCached.mLodSize 1 ≤ envZeroCached.fileSize)
    ∧ firstKZero envZeroCached.fileByte
        (hdrZeroCached.mHeaderSize + hdrZeroCached.mLodOffset 1 + CACHE_PREAMBLE_SIZE)
        (hdrZeroCached.mLodSize 1) = true
    ∧ (fetchMeshSkinInfo envZeroCached
        = { FetchResult.noEffects with
              retval := true, issuedHttp := true,
              requestedOffset := hdrZeroCached.mHeaderSize + hdrZeroCached.mSkinOffset,
              requestedSize := hdrZeroCached.mSkinSize }
       ∧ fetchMeshLOD envZeroCached 1
        = { FetchResult.noEffects with
              retval := true, issuedHttp := true,
              requestedOffset := hdrZeroCached.mHeaderSize + hdrZeroCached.mLodOffset 1,
              requestedSize := hdrZeroCached.mLodSize 1 }) :=
  ⟨rfl, by decide, rfl, rfl, rfl, by decide, by decide, by decide, by decide,
   by decide, by decide,
   C1_zero_kb_fallback envZeroCached hdrZeroCached rfl (by decide) rfl rfl rfl
     (by decide) (by decide) (by decide) 1 (by decide) (by decide) (by decide)⟩

/-- C1 (counterexample to the original claim): on this cached skin read
the first kilobyte of cached bytes is all zero and an HTTP request is
issued, yet no presence bit is cleared and the preamble is not
rewritten. -/
theorem C1_zero_kb_counterexample :
    firstKZero envZeroCached.fileByte
        (hdrZeroCached.mHeaderSize + hdrZeroCached.mSkinOffset + CACHE_PREAMBLE_SIZE)
        hdrZeroCached.mSkinSize = true
    ∧ hdrZeroCached.mSkinInCache = true
    ∧ (fetchMeshSkinInfo envZeroCached).issuedHttp = true
    ∧ (fetchMeshSkinInfo envZeroCached).clearedInCacheBits = false
    ∧ (fetchMeshSkinInfo envZeroCached).rewrotePreamble = false := by
  refine ⟨by decide, rfl, by decide, by decide, by decide⟩

/-- `headerFinish` always stores the header it is given. -/
theorem headerFinish_stored (env : HeaderReceivedEnv) (stored : LLMeshHeader)
    (headerSize skinOffset skinSize : Int) (lodOffset lodSize2 : Nat → Int) :
    (headerFinish env stored headerSize skinOffset skinSize lodOffset lodSize2).stored
      = some stored := by
  unfold headerFinish
  cases env.pendingLods <;> rfl

/-- `setInCacheBits` never touches the 404 bit. -/
theorem setInCacheBits_m404 (h : LLMeshHeader) (flags : Option InCacheFlags)
    (headerSize dsize : Int) :
    (setInCacheBits h flags headerSize dsize).m404 = h.m404 := by
  unfold setInCacheBits
  cases flags <;> rfl

/-- `getActualMeshLOD` at requested LOD 0 with the probe order of the
0-clamped walk spelled out. -/
theorem getActualMeshLOD_zero_eq (h : LLMeshHeader) :
    getActualMeshLOD h 0 =
      if h.m404 then (h, -1)
      else if MAX_MESH_VERSION < h.mVersion then (h, -1)
      else if 0 < h.mLodSize 0 then (h, 0)
      else
        match [1, 2, 3].find? (fun i => decide (0 < h.mLodSize i)) with
        | some i => (h, (i : Int))
        | none => ({ h with m404 := true }, -1) := by
  rfl

/-- With no positive LOD size the 0-probe marks the header 404. -/
theorem getActualMeshLOD_zero_none (h : LLMeshHeader) (h404 : h.m404 = false)
    (hv : ¬ MAX_MESH_VERSION < h.mVersion)
    (hall : ∀ i, i < LLVolumeLODGroup_NUM_LODS → h.mLodSize i ≤ 0) :
    getActualMeshLOD h 0 = ({ h with m404 := true }, -1) := by
  have hf : [1, 2, 3].find? (fun i => decide (0 < h.mLodSize i)) = none := by
    rw [List.find?_eq_none]
    intro a ha hpa
    have hpa2 : 0 < h.mLodSize a := of_decide_eq_true hpa
    have ha2 : a = 1 ∨ a = 2 ∨ a = 3 := by simpa using ha
    have h4 : a < LLVolumeLODGroup_NUM_LODS := by
      rcases ha2 with rfl | rfl | rfl <;> decide
    have h0 := hall a h4
    omega
  rw [getActualMeshLOD_zero_eq, if_neg (fun hc => by rw [h404] at hc; cases hc),
    if_neg hv, if_neg (by have h0 := hall 0 (by decide); omega), hf]

/-- With some positive LOD size the 0-probe keeps the header unchanged
and returns a nonnegative LOD. -/
theorem getActualMeshLOD_zero_pos (h : LLMeshHeader) (h404 : h.m404 = false)
    (hv : ¬ MAX_MESH_VERSION < h.mVersion)
    (hex : ∃ i, i < LLVolumeLODGroup_NUM_LODS ∧ 0 < h.mLodSize i) :
    (getActualMeshLOD h 0).1 = h ∧ 0 ≤ (getActualMeshLOD h 0).2 := by
  rw [getActualMeshLOD_zero_eq, if_neg (fun hc => by rw [h404] at hc; cases hc),
    if_neg hv]
  by_cases h0 : 0 < h.mLodSize 0
  · rw [if_pos h0]
    refine ⟨rfl, ?_⟩
    show (0 : Int) ≤ 0
    exact le_refl 0
  · rw [if_neg h0]
    obtain ⟨i, hi4, hip⟩ := hex
    have h4 : i < 4 := hi4
    have hne : i ≠ 0 := fun he => h0 (he ▸ hip)
    have hi123 : i = 1 ∨ i = 2 ∨ i = 3 := by omega
    cases hfind : [1, 2, 3].find? (fun j => decide (0 < h.mLodSize j)) with
    | some j =>
      refine ⟨rfl, ?_⟩
      show (0 : Int) ≤ (j : Int)
      exact Int.natCast_nonneg j
    | none =>
      exfalso
      rw [List.find?_eq_none] at hfind
      rcases hi123 with rfl | rfl | rfl
      · exact hfind 1 (by decide) (decide_eq_true hip)
      · exact hfind 2 (by decide) (decide_eq_true hip)
      · exact hfind 3 (by decide) (decide_eq_true hip)

/-- C5: with a decoded header map, the 404 mark follows exactly the two
gates: a version above the maximum supported version marks 404; a
supported version with no positive LOD size marks 404; and a supported
version with some positive LOD size stores the header without the
mark. -/
theorem C5_header_404_gates (env : HeaderReceivedEnv) (h1 : 0 < env.dataSize)
    (h2 : env.decodeOk = true) (h3 : env.isMap = true) :
    (MAX_MESH_VERSION < env.decoded.version →
       ∃ h, (headerReceived env).stored = some h ∧ h.m404 = true)
    ∧ ((¬ MAX_MESH_VERSION < env.decoded.version) →
        (∀ i, i < LLVolumeLODGroup_NUM_LODS → env.decoded.lodSize i ≤ 0) →
       ∃ h, (headerReceived env).stored = some h ∧ h.m404 = true)
    ∧ ((¬ MAX_MESH_VERSION < env.decoded.version) →
        (∃ i, i < LLVolumeLODGroup_NUM_LODS ∧ 0 < env.decoded.lodSize i) →
       ∃ h, (headerReceived env).stored = some h ∧ h.m404 = false) := by
  simp only [headerReceived]
  rw [if_pos h1, if_neg (fun hc => hc h2), if_neg (fun hc => hc h3)]
  have hver : (LLMeshHeader.fromLLSD env.decoded).mVersion = env.decoded.version := rfl
  rw [hver]
  refine ⟨?_, ?_, ?_⟩
  · intro hv
    rw [if_pos hv, headerFinish_stored]
    exact ⟨_, rfl, rfl⟩
  · intro hv hall
    rw [if_neg hv,
      getActualMeshLOD_zero_none (LLMeshHeader.fromLLSD env.decoded) rfl hv hall]
    have hsnd : (({ LLMeshHeader.fromLLSD env.decoded with m404 := true } : LLMeshHeader),
        (-1 : Int)).2 = -1 := rfl
    rw [hsnd, if_neg (by norm_num : ¬ (0 : Int) ≤ -1), headerFinish_stored]
    exact ⟨_, rfl, rfl⟩
  · intro hv hex
    rw [if_neg hv]
    obtain ⟨hfst, hsnd⟩ :=
      getActualMeshLOD_zero_pos (LLMeshHeader.fromLLSD env.decoded) rfl hv hex
    rw [if_pos hsnd, headerFinish_stored]
    refine ⟨_, rfl, ?_⟩
    rw [setInCacheBits_m404, hfst]
    rfl

/-- A `headerReceived` context carrying a decoded map with a supported
version and one positive LOD size. -/
def envC5 : HeaderReceivedEnv where
  dataSize := 50
  stripBytes := 0
  decodeOk := true
  isMap := true
  decoded := {
    version := 1,
    skinOffset := 0,
    skinSize := 0,
    physicsConvexOffset := 0,
    physicsConvexSize := 0,
    physicsMeshOffset := 0,
    physicsMeshSize := 0,
    lodOffset := fun _ => 0,
    lodSize := fun i => if i = 0 then 4 else 0 }
  streamPos := 30
  flags := none
  pendingLods := none
  skinParseOk := false
  lodParseOk := fun _ => false

theorem C5_header_404_gates_witness :
    (0 : Int) < envC5.dataSize
    ∧ envC5.decodeOk = true
    ∧ envC5.isMap = true
    ∧ ((MAX_MESH_VERSION < envC5.decoded.version →
         ∃ h, (headerReceived envC5).stored = some h ∧ h.m404 = true)
      ∧ ((¬ MAX_MESH_VERSION < envC5.decoded.version) →
          (∀ i, i < LLVolumeLODGroup_NUM_LODS → envC5.decoded.lodSize i ≤ 0) →
         ∃ h, (headerReceived envC5).stored = some h ∧ h.m404 = true)
      ∧ ((¬ MAX_MESH_VERSION < envC5.decoded.version) →
          (∃ i, i < LLVolumeLODGroup_NUM_LODS ∧ 0 < envC5.decoded.lodSize i) →
         ∃ h, (headerReceived envC5).stored = some h ∧ h.m404 = false)) :=
  ⟨by decide, rfl, rfl, C5_header_404_gates envC5 (by decide) rfl rfl⟩

/-- `headerFinish` with a pending-LOD entry, written as the record it
produces. -/
theorem headerFinish_some (env : HeaderReceivedEnv) (stored : LLMeshHeader)
    (headerSize skinOffset skinSize : Int) (lodOffset lodSize2 : Nat → Int)
    (pend : Nat → Nat) (hp : env.pendingLods = some pend) :
    headerFinish env stored headerSize skinOffset skinSize lodOffset lodSize2
      = { result := .MESH_OK, stored := some stored,
          skinSatisfied := (decide (0 ≤ skinOffset) && decide (0 < skinSize))
            && decide (headerSize + skinOffset + skinSize < env.dataSize - env.stripBytes)
            && env.skinParseOk,
          skinRequested := (decide (0 ≤ skinOffset) && decide (0 < skinSize))
            && !(decide (headerSize + skinOffset + skinSize < env.dataSize - env.stripBytes)
                 && env.skinParseOk),
          lodSatisfied := fun i =>
            (decide (i < LLModel_NUM_LODS) && decide (0 < pend i) && decide (0 < lodSize2 i))
            && decide (headerSize + lodOffset i + lodSize2 i ≤ env.dataSize - env.stripBytes)
            && env.lodParseOk i,
          lodRequested := fun i =>
            (decide (i < LLModel_NUM_LODS) && decide (0 < pend i) && decide (0 < lodSize2 i))
            && !(decide (headerSize + lodOffset i + lodSize2 i ≤ env.dataSize - env.stripBytes)
                 && env.lodParseOk i),
          pendingErased := true } := by
  unfold headerFinish
  rw [hp]

/-- C6 (amended): after a header lands with pending LODs recorded, a
pending LOD with positive declared size is satisfied from the in-hand
header-fetch bytes exactly when its bytes end at or before the end of
the retrieved data (a non-strict fit) and the in-hand bytes parse, and
is pushed as a new LOD request otherwise; the declared skin is
satisfied from the in-hand bytes exactly when its bytes end strictly
before the end of the retrieved data and parse, and is pushed as a new
skin request otherwise - so at the exact boundary the LOD is satisfied
in place while the skin goes back out over HTTP. -/
theorem C6_opportunistic_window (env : HeaderReceivedEnv) (stored : LLMeshHeader)
    (headerSize skinOffset skinSize : Int) (lodOffset lodSize2 : Nat → Int)
    (pend : Nat → Nat) (hp : env.pendingLods = some pend) (i : Nat)
    (hgate : i < LLModel_NUM_LODS ∧ 0 < pend i ∧ 0 < lodSize2 i)
    (hsg : 0 ≤ skinOffset ∧ 0 < skinSize) :
    ((headerFinish env stored headerSize skinOffset skinSize lodOffset lodSize2).lodSatisfied i
        = true
      ↔ headerSize + lodOffset i + lodSize2 i ≤ env.dataSize - env.stripBytes
         ∧ env.lodParseOk i = true)
    ∧ ((headerFinish env stored headerSize skinOffset skinSize lodOffset lodSize2).lodRequested i
        = true
      ↔ ¬(headerSize + lodOffset i + lodSize2 i ≤ env.dataSize - env.stripBytes
         ∧ env.lodParseOk i = true))
    ∧ ((headerFinish env stored headerSize skinOffset skinSize lodOffset lodSize2).skinSatisfied
        = true
      ↔ headerSize + skinOffset + skinSize < env.dataSize - env.stripBytes
         ∧ env.skinParseOk = true)
    ∧ ((headerFinish env stored headerSize skinOffset skinSize lodOffset lodSize2).skinRequested
        = true
      ↔ ¬(headerSize + skinOffset + skinSize < env.dataSize - env.stripBytes
         ∧ env.skinParseOk = true)) := by
  obtain ⟨hg1, hg2, hg3⟩ := hgate
  obtain ⟨hs1, hs2⟩ := hsg
  rw [headerFinish_some env stored headerSize skinOffset skinSize lodOffset lodSize2 pend hp]
  refine ⟨?_, ?_, ?_, ?_⟩
  · show (((decide (i < LLModel_NUM_LODS) && decide (0 < pend i) && decide (0 < lodSize2 i))
        && decide (headerSize + lodOffset i + lodSize2 i ≤ env.dataSize - env.stripBytes)
        && env.lodParseOk i) = true) ↔ _
    rw [decide_eq_true hg1, decide_eq_true hg2, decide_eq_true hg3]
    simp [decide_eq_true_eq]
  · show (((decide (i < LLModel_NUM_LODS) && decide (0 < pend i) && decide (0 < lodSize2 i))
        && !(decide (headerSize + lodOffset i + lodSize2 i ≤ env.dataSize - env.stripBytes)
             && env.lodParseOk i)) = true) ↔ _
    rw [decide_eq_true hg1, decide_eq_true hg2, decide_eq_true hg3]
    simp only [Bool.true_and, Bool.not_and, Bool.or_eq_true, Bool.not_eq_true',
      decide_eq_false_iff_not, not_le, Bool.and_eq_true, decide_eq_true_eq]
    constructor
    · intro h hc
      rcases h with h | h
      · exact absurd hc.1 (by omega)
      · rw [h] at hc
        exact Bool.false_ne_true hc.2
    · intro h
      by_cases hle : headerSize + lodOffset i + lodSize2 i ≤ env.dataSize - env.stripBytes
      · exact Or.inr (Bool.eq_false_iff.mpr (fun hp => h ⟨hle, hp⟩))
      · exact Or.inl (by omega)
  · show (((decide (0 ≤ skinOffset) && decide (0 < skinSize))
        && decide (headerSize + skinOffset + skinSize < env.dataSize - env.stripBytes)
        && env.skinParseOk) = true) ↔ _
    rw [decide_eq_true hs1, decide_eq_true hs2]
    simp [decide_eq_true_eq]
  · show (((decide (0 ≤ skinOffset) && decide (0 < skinSize))
        && !(decide (headerSize + skinOffset + skinSize < env.dataSize - env.stripBytes)
             && env.skinParseOk)) = true) ↔ _
    rw [decide_eq_true hs1, decide_eq_true hs2]
    simp only [Bool.true_and, Bool.not_and, Bool.or_eq_true, Bool.not_eq_true',
      decide_eq_false_iff_not, not_lt, Bool.and_eq_true, decide_eq_true_eq]
    constructor
    · intro h hc
      rcases h with h | h
      · exact absurd hc.1 (by omega)
      · rw [h] at hc
        exact Bool.false_ne_true hc.2
    · intro h
      by_cases hlt : headerSize + skinOffset + skinSize < env.dataSize - env.stripBytes
      · exact Or.inr (Bool.eq_false_iff.mpr (fun hp => h ⟨hlt, hp⟩))
      · exact Or.inl (by omega)

/-- Pending-LOD counts as `headerReceived` would see them: one pending
request for LOD 0. -/
def pendC6 : Nat → Nat := fun i => if i = 0 then 1 else 0

/-- `headerReceived` context at the exact window boundary: the declared
skin bytes and the declared LOD-0 bytes both end exactly at the end of
the retrieved data. -/
def envC6 : HeaderReceivedEnv where
  dataSize := 196
  stripBytes := 0
  decodeOk := true
  isMap := true
  decoded := {
    version := 1,
    skinOffset := 0,
    skinSize := 96,
    physicsConvexOffset := 0,
    physicsConvexSize := 0,
    physicsMeshOffset := 0,
    physicsMeshSize := 0,
    lodOffset := fun _ => 0,
    lodSize := fun i => if i = 0 then 96 else 0 }
  streamPos := 100
  flags := none
  pendingLods := some pendC6
  skinParseOk := true
  lodParseOk := fun _ => true

/-- C6 (counterexample to the original claim): with the skin bytes and
the LOD-0 bytes both ending exactly at the end of the retrieved data
(so both lie within those bytes) and both parsing, the pending LOD is
satisfied in place, but the skin is not satisfied and a new skin
request is pushed: the skin check is strict where the claim's "within"
is inclusive. -/
theorem C6_skin_boundary_counterexample :
    envC6.streamPos + envC6.decoded.skinOffset + envC6.decoded.skinSize
        = envC6.dataSize - envC6.stripBytes
    ∧ envC6.streamPos + envC6.decoded.lodOffset 0 + envC6.decoded.lodSize 0
        = envC6.dataSize - envC6.stripBytes
    ∧ envC6.skinParseOk = true
    ∧ envC6.lodParseOk 0 = true
    ∧ (headerReceived envC6).lodSatisfied 0 = true
    ∧ (headerReceived envC6).lodRequested 0 = false
    ∧ (headerReceived envC6).skinSatisfied = false
    ∧ (headerReceived envC6).skinRequested = true := by
  refine ⟨by decide, by decide, rfl, rfl, by decide, by decide, by decide, by decide⟩

theorem C6_opportunistic_window_witness :
    envC6.pendingLods = some pendC6
    ∧ ((0 : Nat) < LLModel_NUM_LODS ∧ 0 < pendC6 0 ∧ (0 : Int) < 96)
    ∧ ((0 : Int) ≤ 0 ∧ (0 : Int) < 96)
    ∧ (((headerFinish envC6 LLMeshHeader.defaultHeader 100 0 96
            (fun _ => 0) (fun i => if i = 0 then 96 else 0)).lodSatisfied 0 = true
        ↔ 100 + (fun _ => (0 : Int)) 0 + (fun i => if i = 0 then (96 : Int) else 0) 0
            ≤ envC6.dataSize - envC6.stripBytes
           ∧ envC6.lodParseOk 0 = true)
      ∧ ((headerFinish envC6 LLMeshHeader.defaultHeader 100 0 96
            (fun _ => 0) (fun i => if i = 0 then 96 else 0)).lodRequested 0 = true
        ↔ ¬(100 + (fun _ => (0 : Int)) 0 + (fun i => if i = 0 then (96 : Int) else 0) 0
            ≤ envC6.dataSize - envC6.stripBytes
           ∧ envC6.lodParseOk 0 = true))
      ∧ ((headerFinish envC6 LLMeshHeader.defaultHeader 100 0 96
            (fun _ => 0) (fun i => if i = 0 then 96 else 0)).skinSatisfied = true
        ↔ (100 : Int) + 0 + 96 < envC6.dataSize - envC6.stripBytes
           ∧ envC6.skinParseOk = true)
      ∧ ((headerFinish envC6 LLMeshHeader.defaultHeader 100 0 96
            (fun _ => 0) (fun i => if i = 0 then 96 else 0)).skinRequested = true
        ↔ ¬((100 : Int) + 0 + 96 < envC6.dataSize - envC6.stripBytes
           ∧ envC6.skinParseOk = true))) :=
  ⟨rfl, ⟨by decide, by decide, by decide⟩, ⟨by decide, by decide⟩,
   C6_opportunistic_window envC6 LLMeshHeader.defaultHeader 100 0 96
     (fun _ => 0) (fun i => if i = 0 then 96 else 0) pendC6 rfl 0
     ⟨by decide, by decide, by decide⟩ ⟨by decide, by decide⟩⟩

/-- C2 (amended): in every reachable state at most one header HTTP
handle per id and at most one LOD HTTP handle per (id, lod) is
outstanding; the registry coalesces further requests for a pair.  The
bound does not extend to the skin sub-section, whose header-arrival
push is not gated on the loading table. -/
theorem C2_at_most_one_inflight (s : MeshSys) (hr : Reachable s) (id lod : Nat) :
    s.hdrFly id ≤ 1 ∧ s.lodFly id lod ≤ 1 := by
  have hInv := inv_reachable hr
  constructor
  · have h := hInv.hdrAtMostOne id
    unfold hdrTok at h
    omega
  · cases hh : s.header id with
    | none =>
      have h := (hInv.noneNoLod id lod hh).2
      omega
    | some b =>
      cases b with
      | false =>
        have h := hInv.badNoFly id lod hh
        omega
      | true =>
        have h := hInv.goodTok id lod hh
        unfold lodTok at h
        omega

theorem C2_at_most_one_inflight_witness :
    Reachable MeshSys.init
    ∧ (MeshSys.init.hdrFly 0 ≤ 1 ∧ MeshSys.init.lodFly 0 0 ≤ 1) :=
  ⟨Reachable.init, C2_at_most_one_inflight MeshSys.init Reachable.init 0 0⟩

/-- C2 (counterexample to the original claim): a reachable state with
two outstanding skin HTTP handles for one mesh id.  A direct skin
request is dispatched and queued; the header for the id then lands with
a declared but unsatisfied skin, and `headerReceived` pushes a second
skin request without consulting `mLoadingSkins`; the worker then issues
both. -/
theorem C2_skin_double_inflight :
    ∃ s : MeshSys, Reachable s ∧ 2 ≤ s.skinFly 0 := by
  have r1 := Reachable.step Reachable.init (Step.getSkinNew MeshSys.init 0 rfl)
  have r2 := Reachable.step r1 (Step.dispatchSkin _ 0 (by decide))
  have r3 := Reachable.step r2 (Step.loadMeshNew _ 0 2 (by decide) (by decide))
  have r4 := Reachable.step r3 (Step.dispatchLod _ 0 2 (by decide))
  have r5 := Reachable.step r4 (Step.drainHeaderIssue _ 0 (by decide))
  have r6 := Reachable.step r5 (Step.hdrArrive _ 0 true (fun _ => false) (fun _ => false)
    false true false (by decide) (fun hx => (Bool.false_ne_true hx).elim))
  have r7 := Reachable.step r6 (Step.drainSkinIssue _ 0 (by decide) (by decide))
  have r8 := Reachable.step r7 (Step.drainSkinIssue _ 0 (by decide) (by decide))
  exact ⟨_, r8, by decide⟩

end MeshRepo
